import Mathlib

/-
  Verification development for the libnetwork "bridge" driver
  (drivers/bridge/bridge.go).  The driver source is shallowly embedded:
  pure Go functions become Lean functions, the driver/network/kernel
  state is threaded explicitly, fallible calls return Except, and the
  deferred-cleanup blocks of the Go code are modelled by performing, at
  every return point, exactly the cleanups whose guard (the shared `err`
  variable) is non-nil there.  Collaborator packages that are not part
  of the excerpt (ipallocator, portmapper, netutils, the setup_* steps
  and link.go) are modelled from the specification; each such definition
  carries a doc comment starting with "Modelled from the spec:".
-/

deriving instance DecidableEq for Except

namespace Bridge

/-- Endpoint / network identifiers (types.UUID is a string in the source). -/
abbrev UUID := String

/-- An IP address: bit width (32 for v4, 128 for v6) and value. -/
structure IP where
  w : Nat
  val : Nat
deriving DecidableEq, Repr

/-- A CIDR (net.IPNet): an address plus a prefix length. -/
structure IPNet where
  addr : IP
  prefLen : Nat
deriving DecidableEq, Repr

/-- The value of a CIDR mask of `p` leading ones in a `w`-bit address. -/
def maskVal (w p : Nat) : Nat := 2 ^ w - 2 ^ (w - p)

/-- net.IPNet.Contains: both the network address and the probed address are
masked and compared bytewise; addresses of a different family never match. -/
def IPNet.contains (n : IPNet) (a : IP) : Bool :=
  decide (a.w = n.addr.w) &&
    decide (a.val &&& maskVal n.addr.w n.prefLen = n.addr.val &&& maskVal n.addr.w n.prefLen)

/-- net.IPMask.Size: the prefix length (number of leading ones). -/
def IPNet.maskSize (n : IPNet) : Nat := n.prefLen

/-- The network (base) address of a CIDR. -/
def subnetBase (s : IPNet) : Nat := s.addr.val &&& maskVal s.addr.w s.prefLen

/-- Number of host bits of a CIDR. -/
def hostBits (s : IPNet) : Nat := s.addr.w - s.prefLen

/-- The first host address of a subnet (assigned to the bridge by setup). -/
def firstHost (s : IPNet) : IP := ⟨s.addr.w, subnetBase s + 1⟩

/-- All error values surfaced by the driver, flattened into one type
(the Go source uses distinct error variables/types with these names). -/
inductive DriverError
  | InvalidMtu
  | InvalidContainerSubnet
  | InvalidGateway
  | ConfigExists
  | InvalidDriverConfig
  | InvalidNetworkConfig
  | NetworkExists
  | NoNetwork
  | ActiveEndpoints
  | InvalidNetworkID
  | InvalidEndpointID
  | EndpointExists
  | EndpointNotFound
  | InvalidEndpointConfig
  | IfaceName
  | NoAvailableIPs
  | AllocatePort
  | LinkNotFound
  | LinkAddFailed
  | SetupFailed
  | FirewallFailed
  | NilPointer
deriving DecidableEq, Repr

/-- Driver configuration (struct Configuration in bridge.go).  Pointer
fields become Option; net.IP / *net.IPNet become IP / IPNet. -/
structure Configuration where
  BridgeName : String := ""
  AddressIPv4 : Option IPNet := none
  FixedCIDR : Option IPNet := none
  FixedCIDRv6 : Option IPNet := none
  EnableIPv6 : Bool := false
  EnableIPTables : Bool := false
  EnableIPMasquerade : Bool := false
  EnableICC : Bool := false
  EnableIPForwarding : Bool := false
  AllowNonDefaultBridge : Bool := false
  Mtu : Int := 0
  DefaultGatewayIPv4 : Option IP := none
  DefaultGatewayIPv6 : Option IP := none
  DefaultBindingIP : Option IP := none
deriving DecidableEq, Repr

/-- The final check of Configuration.Validate (bridge.go lines 121-126): if a
default v6 gateway is specified and IPv6 is enabled, FixedCIDRv6 must be
specified and contain the gateway. -/
def Configuration.validateGw6 (c : Configuration) : Option DriverError :=
  match c.DefaultGatewayIPv6 with
  | some gw6 =>
    if c.EnableIPv6 then
      match c.FixedCIDRv6 with
      | none => some .InvalidGateway
      | some f6 => if ¬ f6.contains gw6 then some .InvalidGateway else none
    else none
  | none => none

/-- The IPv4-default-gateway check of Configuration.Validate (bridge.go lines
113-118), performed only inside the AddressIPv4 branch; on success control
falls through to the v6 gateway check. -/
def Configuration.validateGw4 (c : Configuration) (br : IPNet) : Option DriverError :=
  match c.DefaultGatewayIPv4 with
  | some gw => if ¬ br.contains gw then some .InvalidGateway else Configuration.validateGw6 c
  | none => Configuration.validateGw6 c

/-- Configuration.Validate, transcribed from bridge.go lines 93-129.
Returns `some e` for the error returned, `none` for nil. -/
def Configuration.Validate (c : Configuration) : Option DriverError :=
  if c.Mtu < 0 then
    some .InvalidMtu
  else
    -- If bridge v4 subnet is specified
    match c.AddressIPv4 with
    | some br =>
      -- If Container restricted subnet is specified, it must be a subset
      match c.FixedCIDR with
      | some fc =>
        if ¬ br.contains fc.addr then
          some .InvalidContainerSubnet
        else if br.maskSize > fc.maskSize then
          some .InvalidContainerSubnet
        else
          Configuration.validateGw4 c br
      | none => Configuration.validateGw4 c br
    | none => Configuration.validateGw6 c

/-- Remove the first occurrence of an element from a list (used to model
idempotent release of an allocated resource). -/
def removeFirst {α : Type} [DecidableEq α] : List α → α → List α
  | [], _ => []
  | x :: xs, a => if x = a then xs else x :: removeFirst xs a


/-! ## Kernel (netlink) model: the host's link list. -/

/-- Kind of a kernel link. -/
inductive LinkKind
  | bridge
  | veth
  | other
deriving DecidableEq, Repr

/-- One kernel link (netlink.Link): name, kind and the attributes the
driver programs (master, MAC, MTU, oper state, addresses). -/
structure Link where
  name : String
  kind : LinkKind
  master : Option String := none
  mac : Option Nat := none
  mtu : Option Int := none
  isUp : Bool := false
  addrs : List IPNet := []
deriving DecidableEq, Repr

/-- The kernel networking state visible to the driver: the link list and
the IPv4 forwarding sysctl. -/
structure Kernel where
  links : List Link
  ipForward : Bool := false
deriving DecidableEq, Repr

/-- netlink.LinkByName: first link with the given name, if any. -/
def findLink : List Link → String → Option Link
  | [], _ => none
  | l :: ls, nm => if l.name = nm then some l else findLink ls nm

/-- Apply `f` to every link named `nm` (models programming attributes of an
existing link; `f` never changes the link's name). -/
def mapLink (ls : List Link) (nm : String) (f : Link → Link) : List Link :=
  ls.map (fun l => if l.name = nm then f l else l)

/-- netlink.LinkDel: remove the named link from the link list. -/
def delLink (ls : List Link) (nm : String) : List Link :=
  ls.filter (fun l => ¬ l.name = nm)

/-- Names of all links present on the host (what net.InterfaceByName sees). -/
def linkNames (ls : List Link) : List String := ls.map (·.name)

/-! ## IP allocator (Modelled from the spec, section 4.6: the ipallocator
package is not part of the excerpt).  The process-wide pool is a list of
(subnet, address) allocations, keyed by subnet. -/

/-- The allocator's state: every currently allocated (subnet, address) pair;
reservations made at network setup appear as allocations. -/
abbrev AllocState := List (IPNet × Nat)

/-- Modelled from the spec: an address is free in a pool when it is not
recorded as allocated for that subnet. -/
def freeIP (a : AllocState) (s : IPNet) (ip : Nat) : Bool :=
  decide ((s, ip) ∉ a)

/-- Modelled from the spec: the lowest free host address of the subnet,
excluding the network and broadcast addresses (reserved gateways are
recorded as allocations, so the freeness test excludes them too). -/
def lowestFree (a : AllocState) (s : IPNet) : Option Nat :=
  ((List.range (2 ^ hostBits s - 2)).map (fun i => subnetBase s + 1 + i)).find?
    (fun ip => freeIP a s ip)

/-- Modelled from the spec: ipallocator.RequestIP.  If a preferred address is
supplied and free it is granted; otherwise the lowest free host address is
granted; an exhausted pool yields NoAvailableIPs. -/
def requestIP (a : AllocState) (s : IPNet) (pref : Option Nat) :
    Except DriverError (Nat × AllocState) :=
  match pref with
  | some p =>
    if freeIP a s p then .ok (p, (s, p) :: a)
    else
      match lowestFree a s with
      | some ip => .ok (ip, (s, ip) :: a)
      | none => .error .NoAvailableIPs
  | none =>
    match lowestFree a s with
    | some ip => .ok (ip, (s, ip) :: a)
    | none => .error .NoAvailableIPs

/-- Modelled from the spec: ipallocator.ReleaseIP returns the address to the
subnet's pool; release is idempotent and never fails the caller. -/
def releaseIP (a : AllocState) (s : IPNet) (ip : Nat) : AllocState :=
  removeFirst a (s, ip)

/-- L4 protocol of a port binding. -/
inductive Proto
  | tcp
  | udp
  | sctp
deriving DecidableEq, Repr

/-- netutils.PortBinding: requested (and, once realized, chosen) binding. -/
structure PortBinding where
  proto : Proto
  ip : Option IP := none
  port : Nat := 0
  hostIP : Option IP := none
  hostPort : Nat := 0
  hostPortEnd : Option Nat := none
deriving DecidableEq, Repr

/-- EndpointConfiguration: the user specified configuration for the sandbox
endpoint (bridge.go lines 50-53).  PortBindings distinguishes nil from an
empty list, as the link code tests it against nil. -/
structure EndpointConfiguration where
  MacAddress : Option Nat := none
  PortBindings : Option (List PortBinding) := none
deriving DecidableEq, Repr

/-- The port mapper's process-wide state: all realized bindings installed. -/
abbrev PMState := List PortBinding

/-- Modelled from the spec: a (protocol, host IP, host port) triple already
reserved by some installed binding cannot be granted again. -/
def pmTaken (pm : PMState) (pr : Proto) (hip : IP) (hp : Nat) : Bool :=
  pm.any (fun b =>
    decide (b.proto = pr) && decide (b.hostIP = some hip) && decide (b.hostPort = hp))

/-- Start of the ephemeral host-port range used for auto-assignment. -/
def ephemeralStart : Nat := 49153

/-- Modelled from the spec: the installation makes at most
maxAllocatePortAttempts (= 10) attempts before failing with AllocatePort. -/
def maxAllocatePortAttempts : Nat := 10

/-- Modelled from the spec: host-port selection for one requested binding.
An exact requested port is used (all retry attempts collide with the same
conflicting reservation, so a deterministic conflict fails with
AllocatePort); a requested range is scanned in order; port 0 draws the
first free port of the ephemeral pool, scanning at most
maxAllocatePortAttempts candidates. -/
def choosePort (pm : PMState) (pr : Proto) (hip : IP) (b : PortBinding) :
    Except DriverError Nat :=
  if b.hostPort ≠ 0 then
    match b.hostPortEnd with
    | none =>
      if pmTaken pm pr hip b.hostPort then .error .AllocatePort else .ok b.hostPort
    | some pe =>
      match ((List.range (pe + 1 - b.hostPort)).map (fun i => b.hostPort + i)).find?
          (fun p => ¬ pmTaken pm pr hip p) with
      | some p => .ok p
      | none => .error .AllocatePort
  else
    match ((List.range maxAllocatePortAttempts).map (fun i => ephemeralStart + i)).find?
        (fun p => ¬ pmTaken pm pr hip p) with
    | some p => .ok p
    | none => .error .AllocatePort

/-- Modelled from the spec: realized binding recorded on the endpoint, with
the container address filled in and the chosen host IP and port. -/
def realizeBinding (b : PortBinding) (contIP : IP) (hip : IP) (hp : Nat) : PortBinding :=
  { b with ip := some contIP, hostIP := some hip, hostPort := hp }

/-- Modelled from the spec: install the requested bindings in order; each
binding is installed atomically and a failure reverses the bindings already
installed by the same call, surfacing AllocatePort.  Returns the realized
bindings in request order; on success the port mapper state grows by exactly
that list. -/
def allocGo (contIP : IP) (defBind : Option IP) :
    List PortBinding → PMState → Except DriverError (List PortBinding)
  | [], _ => .ok []
  | b :: rest, cur =>
    let hip := (b.hostIP.getD (defBind.getD ⟨32, 0⟩))
    match choosePort cur b.proto hip b with
    | .error e => .error e
    | .ok p =>
      let r := realizeBinding b contIP hip p
      match allocGo contIP defBind rest (r :: cur) with
      | .error e => .error e
      | .ok rs => .ok (r :: rs)

/-- Modelled from the spec: allocatePorts.  A nil endpoint configuration (or
nil binding list) requests nothing.  On success the realized list is
prepended, as a block, to the port mapper state; on failure the state is
unchanged (per-binding installs of the failing call are reversed). -/
def allocatePorts (epConfig : Option EndpointConfiguration) (contIP : IP)
    (defBind : Option IP) (pm : PMState) :
    Except DriverError (List PortBinding × PMState) :=
  match epConfig with
  | none => .ok ([], pm)
  | some ec =>
    match ec.PortBindings with
    | none => .ok ([], pm)
    | some bs =>
      match allocGo contIP defBind bs pm with
      | .error e => .error e
      | .ok rs => .ok (rs, rs ++ pm)

/-- Modelled from the spec: releasePorts; idempotent release of every
realized binding of the endpoint; errors are logged, never propagated. -/
def releasePorts (pm : PMState) (bound : List PortBinding) : PMState :=
  bound.foldl (fun acc b => removeFirst acc b) pm

/-- Constant names from bridge.go lines 18-24. -/
def networkType : String := "bridge"

/-- The veth name stem: every generated interface name starts with it. -/
def vethStem : String := "veth"

/-- Number of random hex characters appended to the veth name stem. -/
def vethLen : Nat := 7

/-- Destination name of the sandbox-side interface inside the namespace. -/
def containerVeth : String := "eth0"

/-- sandbox.Interface: the sandbox-side interface descriptor returned from
CreateEndpoint. -/
structure SBInterface where
  SrcName : String
  DstName : String
  Address : IPNet
  AddressIPv6 : Option IPNet := none
deriving DecidableEq, Repr

/-- sandbox.Info: interfaces plus gateways. -/
structure SBInfo where
  Interfaces : List SBInterface
  Gateway : Option IP := none
  GatewayIPv6 : Option IP := none
deriving DecidableEq, Repr

/-- bridgeEndpoint (bridge.go lines 61-66).  `intf` is nil on the
placeholder inserted at the start of CreateEndpoint. -/
structure BridgeEndpoint where
  id : UUID
  intf : Option SBInterface := none
  config : Option EndpointConfiguration := none
  portMapping : List PortBinding := []
deriving DecidableEq, Repr

/-- bridgeInterface: the bridge's L3 interface handle (interface.go is not
part of the excerpt; fields are those the driver reads: the kernel link
name, the bridge IPv4/IPv6 networks and the gateways). -/
structure BridgeInterface where
  name : String
  bridgeIPv4 : Option IPNet := none
  bridgeIPv6 : Option IPNet := none
  gatewayIPv4 : Option IP := none
  gatewayIPv6 : Option IP := none
deriving DecidableEq, Repr

/-- bridgeNetwork (bridge.go lines 68-73): id, bridge handle, endpoint
table.  The Go map from endpoint id to endpoint becomes an association
list with unique keys. -/
structure BridgeNetwork where
  id : UUID
  bridge : BridgeInterface
  endpoints : List (UUID × BridgeEndpoint)
deriving DecidableEq, Repr

/-- driver (bridge.go lines 75-79): configuration and the single network. -/
structure DriverState where
  config : Option Configuration := none
  network : Option BridgeNetwork := none
deriving DecidableEq, Repr

/-- Modelled from the spec: one inter-container link (link.go is not part
of the excerpt): a directional set of firewall ACCEPT rules from a parent
address to ports published on a child address on the named bridge. -/
structure LinkSpec where
  parentIP : IP
  childIP : IP
  ports : List PortBinding
  bridgeName : String
deriving DecidableEq, Repr

/-- The process-wide mutable state outside the driver: kernel links, the IP
allocator pool, the port mapper state, and the firewall's inter-container
link rules. -/
structure World where
  kernel : Kernel
  alloc : AllocState := []
  pm : PMState := []
  fw : List LinkSpec := []
deriving DecidableEq, Repr

/-- Endpoint-table lookup (Go map indexing). -/
def lookupEp : List (UUID × BridgeEndpoint) → UUID → Option BridgeEndpoint
  | [], _ => none
  | p :: ps, eid => if p.1 = eid then some p.2 else lookupEp ps eid

/-- Endpoint-table insertion (Go map assignment on a fresh key). -/
def insertEp (eps : List (UUID × BridgeEndpoint)) (eid : UUID) (ep : BridgeEndpoint) :
    List (UUID × BridgeEndpoint) :=
  (eid, ep) :: eps

/-- Endpoint-table removal (Go map delete). -/
def removeEp (eps : List (UUID × BridgeEndpoint)) (eid : UUID) :
    List (UUID × BridgeEndpoint) :=
  eps.filter (fun p => ¬ p.1 = eid)

/-- Endpoint-table update in place (mutation through the stored pointer). -/
def setEp (eps : List (UUID × BridgeEndpoint)) (eid : UUID) (ep : BridgeEndpoint) :
    List (UUID × BridgeEndpoint) :=
  eps.map (fun p => if p.1 = eid then (eid, ep) else p)

/-- bridgeNetwork.getEndpoint (bridge.go lines 131-144): an empty endpoint
id is rejected with InvalidEndpointIDError; otherwise the table is probed
and a miss is returned as (nil, nil). -/
def getEndpoint (n : BridgeNetwork) (eid : UUID) :
    Except DriverError (Option BridgeEndpoint) :=
  if eid = "" then .error .InvalidEndpointID
  else .ok (lookupEp n.endpoints eid)

/-! ## Interface-name generation (bridge.go lines 742-756). -/

/-- Modelled from the spec: the contract of netutils.GenerateRandomName
(netutils is not part of the excerpt): every name it returns is the
four-character stem "veth" followed by vethLen (= 7) hex characters. -/
def isHexChar (c : Char) : Bool :=
  c ∈ ("0123456789abcdef".data)

/-- Well-formedness of a generated veth interface name: stem "veth" plus
exactly 7 hex characters. -/
def isVethName (s : String) : Bool :=
  decide (s.data.take 4 = ['v', 'e', 't', 'h']) &&
    decide (s.data.length = 4 + vethLen) &&
    (s.data.drop 4).all isHexChar

/-- generateIfaceName: up to 3 attempts; the random source is modelled as a
stream of candidates, `none` standing for a GenerateRandomName failure
(which the loop treats as a failed attempt).  A candidate naming an
existing host interface is rejected and the loop retries; a fresh
candidate is returned; when all 3 attempts fail the function returns
ErrIfaceName. -/
def genIfaceGo (existing : List String) : Nat → List (Option String) → Except DriverError String
  | 0, _ => .error .IfaceName
  | Nat.succ k, [] => genIfaceGo existing k []
  | Nat.succ k, c :: cs =>
    match c with
    | none => genIfaceGo existing k cs
    | some nm => if nm ∈ existing then genIfaceGo existing k cs else .ok nm

/-- generateIfaceName (bridge.go lines 742-756), with the host's interface
list and the random-name stream made explicit. -/
def generateIfaceName (existing : List String) (cands : List (Option String)) :
    Except DriverError String :=
  genIfaceGo existing 3 cands

/-- electMacAddress (bridge.go lines 732-737): the user-configured MAC if
present, otherwise a freshly generated one (the random generator's output
is passed in as `genMac`). -/
def electMacAddress (epConfig : Option EndpointConfiguration) (genMac : Nat) : Nat :=
  match epConfig with
  | some ec =>
    match ec.MacAddress with
    | some m => m
    | none => genMac
  | none => genMac

/-- The SLAAC-style preferred IPv6 address computed by CreateEndpoint
(bridge.go lines 458-465): when the chosen network's prefix length is at
most 80, the 6 MAC bytes are copied into the address at byte offset 10,
i.e. the low 48 bits of the 16-byte address are replaced by the MAC;
otherwise no preferred address is produced. -/
def slaacHint (net6 : IPNet) (mac : Nat) : Option Nat :=
  if net6.prefLen ≤ 80 then
    some ((net6.addr.val / 2 ^ 48) * 2 ^ 48 + mac % 2 ^ 48)
  else
    none

/-! ## Bridge setup pipeline (bridge.go lines 187-279; the setup_* step
bodies are not part of the excerpt and are modelled from the spec,
section 4.3). -/

/-- The named setup steps queued by CreateNetwork. -/
inductive SetupStep
  | setupDevice
  | setupBridgeIPv4
  | setupBridgeIPv6
  | setupVerifyAndReconcile
  | setupFixedCIDRv4
  | setupFixedCIDRv6
  | setupIPTables
  | setupIPForwarding
  | setupGatewayIPv4
  | setupGatewayIPv6
  | setupDeviceUp
deriving DecidableEq, Repr

/-- bridgeSetup: the ordered queue of steps. -/
structure BridgeSetup where
  steps : List SetupStep
deriving DecidableEq, Repr

/-- queueStep appends a step to the queue. -/
def queueStep (b : BridgeSetup) (s : SetupStep) : BridgeSetup :=
  ⟨b.steps ++ [s]⟩

/-- newInterface: the bridge L3 handle for the configured device name
(interface.go is not part of the excerpt; the handle starts with no
recorded addresses). -/
def newInterface (c : Configuration) : BridgeInterface :=
  { name := c.BridgeName }

/-- bridgeInterface.exists(): whether a kernel link with the bridge's name
is present. -/
def ifaceExists (k : Kernel) (nm : String) : Bool :=
  (findLink k.links nm).isSome

/-- The state a setup step acts on: the bridge handle, the kernel, and the
allocator. -/
structure SetupState where
  iface : BridgeInterface
  kernel : Kernel
  alloc : AllocState
deriving DecidableEq, Repr

/-- Modelled from the spec: the first of the predefined IPv4 candidate
subnets (172.17.0.0/16); the scan over host routes is not modelled. -/
def defaultPool : IPNet := ⟨⟨32, 172 * 2 ^ 24 + 17 * 2 ^ 16⟩, 16⟩

/-- The fixed link-local bridge IPv6 network fe80::1/64. -/
def linkLocalNet : IPNet := ⟨⟨128, 0xfe80 * 2 ^ 112 + 1⟩, 64⟩

/-- Modelled from the spec: setupDevice creates a kernel bridge link with
the configured name; a taken name that does not refer to a bridge fails
unless adopting a non-default bridge is allowed. -/
def setupDeviceF (c : Configuration) (st : SetupState) : Except DriverError SetupState :=
  match findLink st.kernel.links st.iface.name with
  | some l =>
    if l.kind = .bridge ∨ c.AllowNonDefaultBridge then .ok st
    else .error .SetupFailed
  | none =>
    .ok { st with kernel :=
      { st.kernel with links := { name := st.iface.name, kind := .bridge } :: st.kernel.links } }

/-- Modelled from the spec: setupBridgeIPv4 chooses the configured subnet if
present (otherwise the first predefined candidate), assigns its first host
address to the bridge link and records it as the bridge IPv4 and gateway. -/
def setupBridgeIPv4F (c : Configuration) (st : SetupState) : Except DriverError SetupState :=
  let subnet := c.AddressIPv4.getD defaultPool
  let bip : IPNet := ⟨firstHost subnet, subnet.prefLen⟩
  .ok { st with
    iface := { st.iface with bridgeIPv4 := some bip, gatewayIPv4 := some bip.addr },
    kernel := { st.kernel with
      links := mapLink st.kernel.links st.iface.name (fun l => { l with addrs := bip :: l.addrs }) } }

/-- Modelled from the spec: setupBridgeIPv6 assigns the fixed link-local
address fe80::1/64 if absent and records it as the bridge IPv6; if a
configured v6 sub-CIDR exists its gateway is additionally assigned on the
bridge link. -/
def setupBridgeIPv6F (c : Configuration) (st : SetupState) : Except DriverError SetupState :=
  let extra : List IPNet :=
    match c.FixedCIDRv6 with
    | some f6 => [⟨firstHost f6, f6.prefLen⟩]
    | none => []
  .ok { st with
    iface := { st.iface with bridgeIPv6 := some linkLocalNet },
    kernel := { st.kernel with
      links := mapLink st.kernel.links st.iface.name (fun l =>
        { l with addrs :=
            (if linkLocalNet ∈ l.addrs then extra else linkLocalNet :: extra) ++ l.addrs }) } }

/-- Modelled from the spec: setupVerifyAndReconcile asserts the adopted
bridge carries the expected IPv4 address, adding it when missing and
failing when a conflicting IPv4 address is present; the bridge handle's
recorded addresses are (re)populated. -/
def setupVerifyAndReconcileF (c : Configuration) (st : SetupState) :
    Except DriverError SetupState :=
  match findLink st.kernel.links st.iface.name with
  | none => .error .SetupFailed
  | some l =>
    if l.kind ≠ .bridge then .error .SetupFailed
    else
      match c.AddressIPv4 with
      | none => .ok st
      | some s =>
        let expected : IPNet := ⟨firstHost s, s.prefLen⟩
        let st' := { st with iface :=
          { st.iface with bridgeIPv4 := some expected, gatewayIPv4 := some expected.addr } }
        if expected ∈ l.addrs then .ok st'
        else if l.addrs.any (fun ad => ad.addr.w = 32) then .error .SetupFailed
        else .ok { st' with kernel := { st.kernel with
          links := mapLink st.kernel.links st.iface.name (fun lk =>
            { lk with addrs := expected :: lk.addrs }) } }

/-- Modelled from the spec: setupFixedCIDRv4 registers the container
sub-CIDR with the IP allocator, reserving the gateway address so it cannot
be handed out. -/
def setupFixedCIDRv4F (c : Configuration) (st : SetupState) : Except DriverError SetupState :=
  match c.FixedCIDR with
  | none => .ok st
  | some fc =>
    match st.iface.bridgeIPv4 with
    | some b4 => .ok { st with alloc := (fc, b4.addr.val) :: st.alloc }
    | none => .ok st

/-- Modelled from the spec: setupFixedCIDRv6 registers the v6 sub-CIDR with
the IP allocator, reserving its gateway address. -/
def setupFixedCIDRv6F (c : Configuration) (st : SetupState) : Except DriverError SetupState :=
  match c.FixedCIDRv6 with
  | none => .ok st
  | some f6 => .ok { st with alloc := (f6, (firstHost f6).val) :: st.alloc }

/-- Modelled from the spec: setupIPTables installs the driver's firewall
chains and policies; the firewall chain state is outside the kernel link
list and the claims, so the setup state is unchanged here. -/
def setupIPTablesF (_ : Configuration) (st : SetupState) : Except DriverError SetupState :=
  .ok st

/-- Modelled from the spec: setupIPForwarding enables the forwarding
sysctl. -/
def setupIPForwardingF (_ : Configuration) (st : SetupState) : Except DriverError SetupState :=
  .ok { st with kernel := { st.kernel with ipForward := true } }

/-- Modelled from the spec: setupGatewayIPv4 records the configured default
gateway on the bridge handle. -/
def setupGatewayIPv4F (c : Configuration) (st : SetupState) : Except DriverError SetupState :=
  match c.DefaultGatewayIPv4 with
  | none => .ok st
  | some gw => .ok { st with iface := { st.iface with gatewayIPv4 := some gw } }

/-- Modelled from the spec: setupGatewayIPv6 records the configured default
v6 gateway on the bridge handle. -/
def setupGatewayIPv6F (c : Configuration) (st : SetupState) : Except DriverError SetupState :=
  match c.DefaultGatewayIPv6 with
  | none => .ok st
  | some gw => .ok { st with iface := { st.iface with gatewayIPv6 := some gw } }

/-- Modelled from the spec: setupDeviceUp brings the bridge link up, failing
when the link is absent. -/
def setupDeviceUpF (_ : Configuration) (st : SetupState) : Except DriverError SetupState :=
  match findLink st.kernel.links st.iface.name with
  | none => .error .SetupFailed
  | some _ =>
    .ok { st with kernel := { st.kernel with
      links := mapLink st.kernel.links st.iface.name (fun l => { l with isUp := true }) } }

/-- Dispatch a queued step to its semantics. -/
def runStep (c : Configuration) : SetupStep → SetupState → Except DriverError SetupState
  | .setupDevice => setupDeviceF c
  | .setupBridgeIPv4 => setupBridgeIPv4F c
  | .setupBridgeIPv6 => setupBridgeIPv6F c
  | .setupVerifyAndReconcile => setupVerifyAndReconcileF c
  | .setupFixedCIDRv4 => setupFixedCIDRv4F c
  | .setupFixedCIDRv6 => setupFixedCIDRv6F c
  | .setupIPTables => setupIPTablesF c
  | .setupIPForwarding => setupIPForwardingF c
  | .setupGatewayIPv4 => setupGatewayIPv4F c
  | .setupGatewayIPv6 => setupGatewayIPv6F c
  | .setupDeviceUp => setupDeviceUpF c

/-- bridgeSetup.apply(): execute the queued steps in enqueue order,
stopping at the first error; the state reached so far is kept (the
pipeline does not roll itself back). -/
def applySteps (c : Configuration) : List SetupStep → SetupState →
    Option DriverError × SetupState
  | [], st => (none, st)
  | s :: rest, st =>
    match runStep c s st with
    | .error e => (some e, st)
    | .ok st' => applySteps c rest st'

/-- The conditional step table of CreateNetwork (bridge.go lines 233-266),
in source order: condition paired with step. -/
def condSteps (c : Configuration) (bridgeAlreadyExists : Bool) : List (Bool × SetupStep) :=
  [ (c.EnableIPv6, .setupBridgeIPv6),
    (bridgeAlreadyExists, .setupVerifyAndReconcile),
    (c.FixedCIDR.isSome, .setupFixedCIDRv4),
    (c.FixedCIDRv6.isSome, .setupFixedCIDRv6),
    (c.EnableIPTables, .setupIPTables),
    (c.EnableIPForwarding, .setupIPForwarding),
    (c.DefaultGatewayIPv4.isSome, .setupGatewayIPv4),
    (c.DefaultGatewayIPv6.isSome, .setupGatewayIPv6) ]

/-- The queue CreateNetwork assembles (bridge.go lines 222-273): device
creation and IPv4 assignment when the bridge does not yet exist, then the
conditional table, then setupDeviceUp. -/
def buildQueue (c : Configuration) (bridgeAlreadyExists : Bool) : List SetupStep :=
  let b : BridgeSetup := ⟨[]⟩
  let b :=
    if bridgeAlreadyExists then b
    else queueStep (queueStep b .setupDevice) .setupBridgeIPv4
  let b := (condSteps c bridgeAlreadyExists).foldl
    (fun b p => if p.1 then queueStep b p.2 else b) b
  (queueStep b .setupDeviceUp).steps

/-- driver.CreateNetwork (bridge.go lines 187-279).  The network placeholder
is installed, the pipeline runs, and the deferred cleanup clears the
placeholder whenever the shared `err` is non-nil, so an error leaves no
network registered; pipeline effects on kernel and allocator are kept. -/
def CreateNetwork (d : DriverState) (w : World) (id : UUID) :
    Except DriverError Unit × DriverState × World :=
  match d.config with
  | none => (.error .InvalidNetworkConfig, d, w)
  | some config =>
    match d.network with
    | some _ => (.error .NetworkExists, d, w)
    | none =>
      let iface := newInterface config
      let pre := ifaceExists w.kernel iface.name
      let q := buildQueue config pre
      match applySteps config q ⟨iface, w.kernel, w.alloc⟩ with
      | (some e, st) =>
        (.error e, { d with network := none },
          { w with kernel := st.kernel, alloc := st.alloc })
      | (none, st) =>
        (.ok (), { d with network := some { id := id, bridge := st.iface, endpoints := [] } },
          { w with kernel := st.kernel, alloc := st.alloc })

/-- The deferred compare-and-restore of DeleteNetwork (bridge.go lines
292-300): the detached network pointer is put back only when no other
caller has installed a new network in the meantime. -/
def restoreNetwork (d : DriverState) (n : Option BridgeNetwork) : DriverState :=
  match d.network with
  | none => { d with network := n }
  | some _ => d

/-- driver.DeleteNetwork (bridge.go lines 281-318).  The network is
detached under the lock; NoNetwork when absent, ActiveEndpoints when
endpoints remain; otherwise the bridge link is deleted (failing when it
is absent); every failure runs the compare-and-restore defer.  The nid
argument is accepted but never compared (the driver manages one network). -/
def DeleteNetwork (d : DriverState) (w : World) (_nid : UUID) :
    Except DriverError Unit × DriverState × World :=
  let n := d.network
  let d1 : DriverState := { d with network := none }
  match n with
  | none => (.error .NoNetwork, restoreNetwork d1 n, w)
  | some net =>
    if net.endpoints.length ≠ 0 then
      (.error .ActiveEndpoints, restoreNetwork d1 n, w)
    else
      match findLink w.kernel.links net.bridge.name with
      | none => (.error .LinkNotFound, restoreNetwork d1 n, w)
      | some _ =>
        (.ok (), d1, { w with kernel := { w.kernel with
          links := delLink w.kernel.links net.bridge.name } })

/-! ## Endpoint lifecycle (bridge.go lines 320-574).

CreateEndpoint registers three deferred cleanups, each guarded by the
function-scoped `err` variable: remove the placeholder endpoint (line
367), delete the host-side link (line 400) and delete the sandbox-side
link (line 411).  Every return point below performs exactly the cleanups
whose guard is satisfied there.  In the IPv6 block the Go code declares
`ip6, err := ipAllocator.RequestIP(network, ip6)` inside a nested scope,
shadowing the function-scoped `err`; a failing v6 request therefore
returns its error while the deferred guards still see a nil `err`, so no
cleanup runs on that path.  No cleanup ever releases the IPv4 or IPv6
address requested earlier in the call. -/

/-- driver.CreateEndpoint.  `epParse` is the outcome of
parseEndpointOptions (option decoding by reflection is outside the
embedding); `cands1`/`cands2` are the random-name streams for the two
generateIfaceName calls; `genMac` is the randomly generated MAC used when
the user supplied none. -/
def CreateEndpoint (d : DriverState) (w : World) (nid eid : UUID)
    (epParse : Except DriverError (Option EndpointConfiguration))
    (cands1 cands2 : List (Option String)) (genMac : Nat) :
    Except DriverError SBInfo × DriverState × World :=
  match d.network with
  | none => (.error .NoNetwork, d, w)
  | some n =>
    match d.config with
    | none => (.error .NilPointer, d, w)
    | some config =>
      if n.id ≠ nid then (.error .InvalidNetworkID, d, w)
      else
        match getEndpoint n eid with
        | .error e => (.error e, d, w)
        | .ok (some _) => (.error .EndpointExists, d, w)
        | .ok none =>
          match epParse with
          | .error e => (.error e, d, w)
          | .ok epConfig =>
            -- Create and add the placeholder endpoint
            let eps1 := insertEp n.endpoints eid { id := eid, config := epConfig }
            let n1 := { n with endpoints := eps1 }
            let dIns : DriverState := { d with network := some n1 }
            -- state after the remove-endpoint defer has run
            let dRem : DriverState :=
              { d with network := some { n with endpoints := removeEp eps1 eid } }
            match generateIfaceName (linkNames w.kernel.links) cands1 with
            | .error e => (.error e, dRem, w)
            | .ok name1 =>
              match generateIfaceName (linkNames w.kernel.links) cands2 with
              | .error e => (.error e, dRem, w)
              | .ok name2 =>
                -- netlink.LinkAdd of the veth pair
                if name1 = name2 ∨ (findLink w.kernel.links name1).isSome ∨
                    (findLink w.kernel.links name2).isSome then
                  (.error .LinkAddFailed, dRem, w)
                else
                  let k1 : Kernel := { w.kernel with links :=
                    { name := name1, kind := .veth } ::
                      { name := name2, kind := .veth } :: w.kernel.links }
                  match findLink k1.links name1 with
                  | none => (.error .LinkNotFound, dRem, { w with kernel := k1 })
                  | some _ =>
                    match findLink k1.links name2 with
                    | none =>
                      -- host-link defer runs
                      (.error .LinkNotFound, dRem,
                        { w with kernel := { k1 with links := delLink k1.links name1 } })
                    | some _ =>
                      -- MAC programming on the sandbox side
                      let mac := electMacAddress epConfig genMac
                      let ls2 := mapLink k1.links name2 (fun l => { l with mac := some mac })
                      let k2 : Kernel := { k1 with links := ls2 }
                      -- MTU programming on both sides
                      let ls3 :=
                        if config.Mtu ≠ 0 then
                          mapLink (mapLink k2.links name1
                              (fun l => { l with mtu := some config.Mtu }))
                            name2 (fun l => { l with mtu := some config.Mtu })
                        else k2.links
                      let k3 : Kernel := { k2 with links := ls3 }
                      -- kernel state after both link-delete defers have run
                      let kGone : Kernel :=
                        { k3 with links := delLink (delLink k3.links name2) name1 }
                      -- netlink.LinkSetMaster onto the configured bridge
                      match findLink k3.links config.BridgeName with
                      | none => (.error .LinkNotFound, dRem, { w with kernel := kGone })
                      | some bl =>
                        if bl.kind ≠ .bridge then
                          (.error .LinkNotFound, dRem, { w with kernel := kGone })
                        else
                          let ls4 := mapLink k3.links name1
                            (fun l => { l with master := some config.BridgeName })
                          let k4 : Kernel := { k3 with links := ls4 }
                          let kGone4 : Kernel :=
                            { k4 with links := delLink (delLink k4.links name2) name1 }
                          match n.bridge.bridgeIPv4 with
                          | none => (.error .NilPointer, dRem, { w with kernel := kGone4 })
                          | some b4 =>
                            match requestIP w.alloc b4 none with
                            | .error e => (.error e, dRem, { w with kernel := kGone4 })
                            | .ok (ip4, a1) =>
                              let ipv4Addr : IPNet := ⟨⟨32, ip4⟩, b4.prefLen⟩
                              -- v6 address (shadowed err: failures run no defers)
                              let v6res : Except DriverError (Option IPNet × AllocState) :=
                                if config.EnableIPv6 then
                                  match (match config.FixedCIDRv6 with
                                         | some f6 => some f6
                                         | none => n.bridge.bridgeIPv6) with
                                  | none => .error .NilPointer
                                  | some net6 =>
                                    match requestIP a1 net6 (slaacHint net6 mac) with
                                    | .error e => .error e
                                    | .ok (ip6, a2) =>
                                      .ok (some ⟨⟨128, ip6⟩, net6.prefLen⟩, a2)
                                else .ok (none, a1)
                              match v6res with
                              | .error e =>
                                -- the deferred guards read the outer err,
                                -- still nil here: nothing is cleaned up
                                (.error e, dIns, { w with kernel := k4, alloc := a1 })
                              | .ok (ipv6Addr, a2) =>
                                let intf : SBInterface :=
                                  { SrcName := name2, DstName := containerVeth,
                                    Address := ipv4Addr,
                                    AddressIPv6 :=
                                      if config.EnableIPv6 then ipv6Addr else none }
                                let epFull : BridgeEndpoint :=
                                  { id := eid, intf := some intf, config := epConfig }
                                let eps2 := setEp eps1 eid epFull
                                let sinfo : SBInfo :=
                                  { Interfaces := [intf],
                                    Gateway := n.bridge.gatewayIPv4,
                                    GatewayIPv6 :=
                                      if config.EnableIPv6 then n.bridge.gatewayIPv6
                                      else none }
                                match allocatePorts epConfig intf.Address.addr
                                    config.DefaultBindingIP w.pm with
                                | .error e =>
                                  let nGone := { n with endpoints := removeEp eps2 eid }
                                  (.error e, { d with network := some nGone },
                                    { w with kernel := kGone4, alloc := a2 })
                                | .ok (realized, pm1) =>
                                  let epDone := { epFull with portMapping := realized }
                                  let nDone := { n with endpoints := setEp eps1 eid epDone }
                                  (.ok sinfo, { d with network := some nDone },
                                    { w with kernel := k4, alloc := a2, pm := pm1 })

/-- driver.DeleteEndpoint (bridge.go lines 503-574).  The endpoint is
removed from the table; port bindings are released (never failing the
caller), the IPv4 address is released against the bridge's v4 network and,
when IPv6 is enabled, the v6 address is released against the bridge's v6
network (bridgeIPv6 - not the FixedCIDRv6 pool the address may have come
from); finally the sandbox-side link is deleted if still present, errors
ignored.  The compare-and-restore defer re-inserts the endpoint on error;
the modelled release paths never fail, so it never fires here. -/
def DeleteEndpoint (d : DriverState) (w : World) (nid eid : UUID) :
    Except DriverError Unit × DriverState × World :=
  match d.network with
  | none => (.error .NoNetwork, d, w)
  | some n =>
    match d.config with
    | none => (.error .NilPointer, d, w)
    | some config =>
      if n.id ≠ nid then (.error .InvalidNetworkID, d, w)
      else
        match getEndpoint n eid with
        | .error e => (.error e, d, w)
        | .ok none => (.error .EndpointNotFound, d, w)
        | .ok (some ep) =>
          let d1 : DriverState :=
            { d with network := some { n with endpoints := removeEp n.endpoints eid } }
          let pm1 := releasePorts w.pm ep.portMapping
          match ep.intf with
          | none => (.error .NilPointer, d1, { w with pm := pm1 })
          | some itf =>
            match n.bridge.bridgeIPv4 with
            | none => (.error .NilPointer, d1, { w with pm := pm1 })
            | some b4 =>
              let a1 := releaseIP w.alloc b4 itf.Address.addr.val
              let v6res : Except DriverError AllocState :=
                if config.EnableIPv6 then
                  match n.bridge.bridgeIPv6, itf.AddressIPv6 with
                  | some b6, some a6 => .ok (releaseIP a1 b6 a6.addr.val)
                  | _, _ => .error .NilPointer
                else .ok a1
              match v6res with
              | .error e => (.error e, d1, { w with pm := pm1, alloc := a1 })
              | .ok a2 =>
                let k1 : Kernel :=
                  match findLink w.kernel.links itf.SrcName with
                  | some _ => { w.kernel with links := delLink w.kernel.links itf.SrcName }
                  | none => w.kernel
                (.ok (), d1, { w with kernel := k1, pm := pm1, alloc := a2 })

/-! ## Inter-container link programming (bridge.go lines 576-678; the
link.Enable/Disable bodies live in link.go, outside the excerpt, and are
modelled from the spec, section 4.5: Enable installs the ACCEPT rules of
one link, Disable retracts them). -/

/-- ContainerConfiguration (bridge.go lines 56-59). -/
structure ContainerConfiguration where
  parentEndpoints : List UUID := []
  childEndpoints : List UUID := []
deriving DecidableEq, Repr

/-- Modelled from the spec: l.Enable() installs the link's firewall rules;
programming may fail (the failure set is the oracle `fail`). -/
def linkEnable (fail : LinkSpec → Bool) (fw : List LinkSpec) (l : LinkSpec) :
    Except DriverError (List LinkSpec) :=
  if fail l then .error .FirewallFailed else .ok (l :: fw)

/-- Modelled from the spec: l.Disable() retracts the link's rules;
idempotent, never failing the caller. -/
def linkDisable (fw : List LinkSpec) (l : LinkSpec) : List LinkSpec :=
  removeFirst fw l

/-- The deferred Disable calls of d.link run in LIFO order over the links
enabled so far in the call (`acc` holds them most-recent first). -/
def rollbackLinks (acc : List LinkSpec) (fw : List LinkSpec) : List LinkSpec :=
  acc.foldl (fun f l => linkDisable f l) fw

/-- One iteration of d.link's loops: either a resolution error (missing or
invalid endpoint id), a skip (child without published ports), or a link to
program. -/
abbrev LinkItem := Except DriverError (Option LinkSpec)

/-- The parent-endpoint loop items (bridge.go lines 616-645): entered only
when the current endpoint has a non-nil config with non-nil PortBindings;
each parent id is resolved through getEndpoint, a missing parent being an
InvalidEndpointIDError; the link runs from the parent's address to the
current endpoint's address over the endpoint's own bindings. -/
def parentItems (net : BridgeNetwork) (endpoint : BridgeEndpoint) (bn : String)
    (ps : List UUID) : List LinkItem :=
  match endpoint.config with
  | none => []
  | some ec =>
    match ec.PortBindings with
    | none => []
    | some pbs =>
      ps.map (fun p =>
        match getEndpoint net p with
        | .error e => .error e
        | .ok none => .error .InvalidEndpointID
        | .ok (some pe) =>
          match pe.intf, endpoint.intf with
          | some pif, some eif => .ok (some ⟨pif.Address.addr, eif.Address.addr, pbs, bn⟩)
          | _, _ => .error .NilPointer)

/-- The child-endpoint loop items (bridge.go lines 647-676): every child id
is resolved; children without a config or published ports are skipped; the
link runs from the current endpoint's address to the child's address over
the child's bindings. -/
def childItems (net : BridgeNetwork) (endpoint : BridgeEndpoint) (bn : String)
    (cs : List UUID) : List LinkItem :=
  cs.map (fun cid =>
    match getEndpoint net cid with
    | .error e => .error e
    | .ok none => .error .InvalidEndpointID
    | .ok (some ce) =>
      match ce.config with
      | none => .ok none
      | some cec =>
        match cec.PortBindings with
        | none => .ok none
        | some pbs =>
          match endpoint.intf, ce.intf with
          | some eif, some cif => .ok (some ⟨eif.Address.addr, cif.Address.addr, pbs, bn⟩)
          | _, _ => .error .NilPointer)

/-- Execute the loop items.  In the enable direction each successful Enable
registers a deferred Disable guarded by the shared `err`, so any later
failure (resolution or Enable) disables every link enabled earlier in the
same call.  In the disable direction Disable runs unconditionally and
resolution errors abort without undoing prior disables. -/
def execLinks (fail : LinkSpec → Bool) (enable : Bool) :
    List LinkItem → List LinkSpec → List LinkSpec →
    Except DriverError Unit × List LinkSpec
  | [], _, fw => (.ok (), fw)
  | item :: rest, acc, fw =>
    match item with
    | .error e =>
      if enable then (.error e, rollbackLinks acc fw) else (.error e, fw)
    | .ok none => execLinks fail enable rest acc fw
    | .ok (some l) =>
      if enable then
        match linkEnable fail fw l with
        | .error e => (.error e, rollbackLinks acc fw)
        | .ok fw' => execLinks fail enable rest (l :: acc) fw'
      else execLinks fail enable rest acc (linkDisable fw l)

/-- driver.link (bridge.go lines 594-678).  `ccParse` is the outcome of
parseContainerOptions; a nil container configuration is a no-op. -/
def driverLink (d : DriverState) (fw : List LinkSpec) (eid : UUID)
    (ccParse : Except DriverError (Option ContainerConfiguration))
    (enable : Bool) (fail : LinkSpec → Bool) :
    Except DriverError Unit × List LinkSpec :=
  match d.network with
  | none => (.error .NilPointer, fw)
  | some net =>
    match getEndpoint net eid with
    | .error e => (.error e, fw)
    | .ok none => (.error .EndpointNotFound, fw)
    | .ok (some endpoint) =>
      match ccParse with
      | .error e => (.error e, fw)
      | .ok none => (.ok (), fw)
      | .ok (some cc) =>
        match d.config with
        | none => (.error .NilPointer, fw)
        | some config =>
          execLinks fail enable
            (parentItems net endpoint config.BridgeName cc.parentEndpoints ++
              childItems net endpoint config.BridgeName cc.childEndpoints)
            [] fw

/-- driver.Join (bridge.go lines 577-583): link programming in the enable
direction, performed only when ICC is disabled. -/
def Join (d : DriverState) (fw : List LinkSpec) (eid : UUID)
    (ccParse : Except DriverError (Option ContainerConfiguration))
    (fail : LinkSpec → Bool) : Except DriverError Unit × List LinkSpec :=
  match d.config with
  | none => (.error .NilPointer, fw)
  | some config =>
    if ¬ config.EnableICC then driverLink d fw eid ccParse true fail
    else (.ok (), fw)

/-- driver.Leave (bridge.go lines 586-592): link programming in the disable
direction, performed only when ICC is disabled. -/
def Leave (d : DriverState) (fw : List LinkSpec) (eid : UUID)
    (ccParse : Except DriverError (Option ContainerConfiguration))
    (fail : LinkSpec → Bool) : Except DriverError Unit × List LinkSpec :=
  match d.config with
  | none => (.error .NilPointer, fw)
  | some config =>
    if ¬ config.EnableICC then driverLink d fw eid ccParse false fail
    else (.ok (), fw)

/-- driver.Type (bridge.go lines 680-682). -/
def driverType : String := networkType

/-! ## Concrete scenario values (used by witnesses and counterexamples).
Scenario: bridge "br0" with IPv4 10.0.0.1/30, one network "n1". -/

/-- Pack an IPv4 dotted quad into its numeric value. -/
def ip4v (a b c d : Nat) : Nat := ((a * 256 + b) * 256 + c) * 256 + d

/-- The bridge's IPv4 network 10.0.0.1/30. -/
def b4net : IPNet := ⟨⟨32, ip4v 10 0 0 1⟩, 30⟩

/-- The configured AddressIPv4 subnet 10.0.0.0/30. -/
def v4pool : IPNet := ⟨⟨32, ip4v 10 0 0 0⟩, 30⟩

/-- A minimal valid configuration for bridge "br0". -/
def cfgA : Configuration := { BridgeName := "br0", AddressIPv4 := some v4pool }

/-- The kernel bridge link of the scenario. -/
def brLink : Link := { name := "br0", kind := .bridge, isUp := true, addrs := [b4net] }

/-- Scenario kernel: just the bridge. -/
def k0 : Kernel := ⟨[brLink], false⟩

/-- Scenario network "n1" with an empty endpoint table. -/
def n0 : BridgeNetwork :=
  { id := "n1",
    bridge := { name := "br0", bridgeIPv4 := some b4net,
                bridgeIPv6 := some linkLocalNet,
                gatewayIPv4 := some ⟨32, ip4v 10 0 0 1⟩ },
    endpoints := [] }

/-- Scenario driver state with the network installed. -/
def d0 : DriverState := { config := some cfgA, network := some n0 }

/-- Scenario world: the bridge exists, nothing allocated. -/
def w0 : World := { kernel := k0 }

/-- Random-name streams for the two generateIfaceName calls. -/
def cand1 : List (Option String) := [some "vetha000001"]

/-- Random-name stream for the sandbox-side name. -/
def cand2 : List (Option String) := [some "vetha000002"]

/-- A port mapper state in which tcp host port 8080 is already reserved. -/
def pmBusy : PMState := [{ proto := .tcp, port := 99, hostIP := some ⟨32, 0⟩, hostPort := 8080 }]

/-- An endpoint option set requesting exactly the reserved host port. -/
def epReq : EndpointConfiguration :=
  { PortBindings := some [{ proto := .tcp, port := 80, hostPort := 8080 }] }

/-- World with the conflicting port reservation installed. -/
def wBusy : World := { kernel := k0, pm := pmBusy }

/-- A tiny v6 sub-CIDR fd00::/126 (two host addresses). -/
def f6tiny : IPNet := ⟨⟨128, 0xfd00 * 2 ^ 112⟩, 126⟩

/-- Scenario configuration with IPv6 on the tiny sub-CIDR. -/
def cfg6tiny : Configuration := { cfgA with EnableIPv6 := true, FixedCIDRv6 := some f6tiny }

/-- Driver state for the tiny-v6 scenario. -/
def d6tiny : DriverState := { config := some cfg6tiny, network := some n0 }

/-- Allocator state in which the tiny v6 pool is exhausted. -/
def a6full : AllocState := [(f6tiny, 0xfd00 * 2 ^ 112 + 1), (f6tiny, 0xfd00 * 2 ^ 112 + 2)]

/-- World for the tiny-v6 scenario. -/
def w6full : World := { kernel := k0, alloc := a6full }

/-- The v6 sub-CIDR fd00::/64 of scenario S4. -/
def f64 : IPNet := ⟨⟨128, 0xfd00 * 2 ^ 112⟩, 64⟩

/-- Scenario configuration with IPv6 enabled on fd00::/64. -/
def cfg64 : Configuration := { cfgA with EnableIPv6 := true, FixedCIDRv6 := some f64 }

/-- Driver state for the fd00::/64 scenario. -/
def d64 : DriverState := { config := some cfg64, network := some n0 }

/-- A driver that is configured but holds no network yet. -/
def dCfgOnly : DriverState := { config := some cfgA }

/-- A realized sandbox interface used in the link-programming scenario. -/
def sbIntf (nm : String) (ipv : Nat) : SBInterface :=
  { SrcName := nm, DstName := containerVeth, Address := ⟨⟨32, ipv⟩, 30⟩ }

/-- An endpoint publishing ports (the link target). -/
def epChild : BridgeEndpoint :=
  { id := "e1", intf := some (sbIntf "vetha000002" (ip4v 10 0 0 2)),
    config := some epReq }

/-- A parent endpoint with no published ports of its own. -/
def epParent : BridgeEndpoint :=
  { id := "p1", intf := some (sbIntf "vethp000001" (ip4v 10 0 0 1)) }

/-- Scenario network with the child and one parent endpoint. -/
def n7 : BridgeNetwork := { n0 with endpoints := [("e1", epChild), ("p1", epParent)] }

/-- Driver state for the link-programming scenario. -/
def d7 : DriverState := { config := some cfgA, network := some n7 }

/-- Container configuration naming one existing and one missing parent. -/
def cc7 : ContainerConfiguration := { parentEndpoints := ["p1", "p2"] }

/-- Scenario configuration with inter-container communication enabled. -/
def cfgICC : Configuration := { cfgA with EnableICC := true }

/-- Driver state with ICC enabled. -/
def dICC : DriverState := { config := some cfgICC, network := some n0 }

/-- The sandbox interface CreateEndpoint returns in the fd00::/64 scenario
for an endpoint whose MAC is `mac`: the IPv6 address is the network prefix
with the MAC copied into the low 48 bits. -/
def c6Intf (mac : Nat) : SBInterface :=
  { SrcName := "vetha000002", DstName := containerVeth,
    Address := ⟨⟨32, ip4v 10 0 0 1⟩, 30⟩,
    AddressIPv6 := some ⟨⟨128, (f64.addr.val / 2 ^ 48) * 2 ^ 48 + mac % 2 ^ 48⟩, 64⟩ }

/-- The sandbox info CreateEndpoint returns in the fd00::/64 scenario. -/
def c6Info (mac : Nat) : SBInfo :=
  { Interfaces := [c6Intf mac], Gateway := some ⟨32, ip4v 10 0 0 1⟩,
    GatewayIPv6 := none }

/-- Scenario configuration with IPv6 enabled and no FixedCIDRv6 (the v6
pool is then the bridge's own v6 network). -/
def cfgB : Configuration := { cfgA with EnableIPv6 := true }

/-- Driver state for the FixedCIDRv6-free IPv6 scenario. -/
def dB : DriverState := { config := some cfgB, network := some n0 }

/-- The placeholder endpoint CreateEndpoint leaves behind on the shadowed
IPv6 failure path. -/
def ph6 : BridgeEndpoint := { id := "e1", config := some {} }

/-- The driver state left behind by the shadowed IPv6 failure: the
placeholder is still in the endpoint table. -/
def d6tinyLeak : DriverState :=
  { config := some cfg6tiny,
    network := some { id := "n1", bridge := n0.bridge, endpoints := [("e1", ph6)] } }

/-- Payload of a successful CreateEndpoint result (dummy on error). -/
def okPayload (x : Except DriverError SBInfo) : SBInfo :=
  match x with
  | .ok s => s
  | .error _ => { Interfaces := [] }

/-- The witness round trip on the v4-only scenario: result info. -/
def resA : SBInfo := okPayload (CreateEndpoint d0 w0 "n1" "e1" (.ok none) cand1 cand2 2).1

/-- Driver state after the witness CreateEndpoint (v4-only). -/
def d1A : DriverState := (CreateEndpoint d0 w0 "n1" "e1" (.ok none) cand1 cand2 2).2.1

/-- World after the witness CreateEndpoint (v4-only). -/
def w1A : World := (CreateEndpoint d0 w0 "n1" "e1" (.ok none) cand1 cand2 2).2.2

/-- Driver state after the witness DeleteEndpoint (v4-only). -/
def d2A : DriverState := (DeleteEndpoint d1A w1A "n1" "e1").2.1

/-- World after the witness DeleteEndpoint (v4-only). -/
def w2A : World := (DeleteEndpoint d1A w1A "n1" "e1").2.2

/-- The witness round trip on the IPv6-without-FixedCIDRv6 scenario. -/
def resB : SBInfo := okPayload (CreateEndpoint dB w0 "n1" "e1" (.ok none) cand1 cand2 2).1

/-- Driver state after the witness CreateEndpoint (IPv6, no FixedCIDRv6). -/
def d1B : DriverState := (CreateEndpoint dB w0 "n1" "e1" (.ok none) cand1 cand2 2).2.1

/-- World after the witness CreateEndpoint (IPv6, no FixedCIDRv6). -/
def w1B : World := (CreateEndpoint dB w0 "n1" "e1" (.ok none) cand1 cand2 2).2.2

/-- Driver state after the witness DeleteEndpoint (IPv6, no FixedCIDRv6). -/
def d2B : DriverState := (DeleteEndpoint d1B w1B "n1" "e1").2.1

/-- World after the witness DeleteEndpoint (IPv6, no FixedCIDRv6). -/
def w2B : World := (DeleteEndpoint d1B w1B "n1" "e1").2.2

/-- A world whose kernel has no links at all (the bridge does not yet
exist). -/
def wEmpty : World := { kernel := ⟨[], false⟩ }

/-- Driver state after the witness CreateNetwork on the empty kernel. -/
def dC1 : DriverState := (CreateNetwork dCfgOnly wEmpty "n1").2.1

/-- World after the witness CreateNetwork on the empty kernel. -/
def wC1 : World := (CreateNetwork dCfgOnly wEmpty "n1").2.2

/-- World after the witness DeleteNetwork on the empty-kernel scenario. -/
def wC2 : World := (DeleteNetwork dC1 wC1 "n1").2.2

/-! ## Specification-side predicates for the configuration invariants
(section 3 of the spec), written from the claim's words. -/

/-- Spec wording: MTU is non-negative. -/
def mtuOK (c : Configuration) : Prop := 0 ≤ c.Mtu

/-- Spec wording: a configured container sub-CIDR is contained in the bridge
subnet and its prefix length is at least the bridge subnet's. -/
def cidrOK (c : Configuration) : Prop :=
  ∀ br fc, c.AddressIPv4 = some br → c.FixedCIDR = some fc →
    br.contains fc.addr = true ∧ br.prefLen ≤ fc.prefLen

/-- Spec wording: a configured IPv4 default gateway lies within the bridge
subnet. -/
def gw4OK (c : Configuration) : Prop :=
  ∀ br gw, c.AddressIPv4 = some br → c.DefaultGatewayIPv4 = some gw →
    br.contains gw = true

/-- Spec wording: with IPv6 enabled, a configured v6 gateway requires a
configured v6 sub-CIDR containing it. -/
def gw6OK (c : Configuration) : Prop :=
  ∀ gw6, c.EnableIPv6 = true → c.DefaultGatewayIPv6 = some gw6 →
    ∃ f6, c.FixedCIDRv6 = some f6 ∧ f6.contains gw6 = true

theorem removeFirst_cons_self {α : Type} [DecidableEq α] (a : α) (l : List α) :
    removeFirst (a :: l) a = l := by
  simp [removeFirst]

theorem removeFirst_of_not_mem {α : Type} [DecidableEq α] {a : α} :
    ∀ {l : List α}, a ∉ l → removeFirst l a = l
  | [], _ => rfl
  | x :: xs, h => by
    have hx : ¬ x = a := fun hxa => h (hxa ▸ List.mem_cons_self x xs)
    have hxs : a ∉ xs := fun hm => h (List.mem_cons_of_mem x hm)
    simp [removeFirst, hx, removeFirst_of_not_mem hxs]

theorem requestIP_ok_shape {a a' : AllocState} {s : IPNet} {pref : Option Nat}
    {ip : Nat} (h : requestIP a s pref = .ok (ip, a')) :
    a' = (s, ip) :: a ∧ (s, ip) ∉ a := by
  unfold requestIP at h
  cases pref with
  | some p =>
    by_cases hf : freeIP a s p
    · simp [hf] at h
      obtain ⟨h1, h2⟩ := h
      subst h1; subst h2
      exact ⟨rfl, of_decide_eq_true hf⟩
    · simp [hf] at h
      cases hlow : lowestFree a s with
      | none => simp [hlow] at h
      | some q =>
        simp [hlow] at h
        obtain ⟨h1, h2⟩ := h
        subst h1; subst h2
        have := List.find?_some hlow
        exact ⟨rfl, of_decide_eq_true this⟩
  | none =>
    cases hlow : lowestFree a s with
    | none => simp [hlow] at h
    | some q =>
      simp [hlow] at h
      obtain ⟨h1, h2⟩ := h
      subst h1; subst h2
      have := List.find?_some hlow
      exact ⟨rfl, of_decide_eq_true this⟩

/-! ## Port mapper (Modelled from the spec, sections 3.x and 4.4: the
portmapper package and port_mapping.go are not part of the excerpt). -/


theorem releasePorts_append (bound : List PortBinding) :
    ∀ pm : PMState, releasePorts (bound ++ pm) bound = pm := by
  induction bound with
  | nil => intro pm; rfl
  | cons b rest ih =>
    intro pm
    have : removeFirst ((b :: (rest ++ pm))) b = rest ++ pm :=
      removeFirst_cons_self b (rest ++ pm)
    simp [releasePorts] at ih ⊢
    rw [this]
    exact ih pm

/-! ## Driver data model (bridge.go lines 18-89). -/


theorem validateGw6_cases (c : Configuration) :
    (c.validateGw6 = none ↔ gw6OK c) ∧
    (¬ gw6OK c → c.validateGw6 = some .InvalidGateway) := by
  unfold Configuration.validateGw6 gw6OK
  cases hG6 : c.DefaultGatewayIPv6 with
  | none => simp
  | some g =>
    cases hE : c.EnableIPv6 with
    | false => simp
    | true =>
      cases hF6 : c.FixedCIDRv6 with
      | none => simp
      | some f6 =>
        by_cases hc : f6.contains g = true <;> simp [hc]

theorem validateGw4_cases (c : Configuration) (br : IPNet)
    (hA : c.AddressIPv4 = some br) :
    (c.validateGw4 br = none ↔ gw4OK c ∧ gw6OK c) ∧
    (¬ gw4OK c → c.validateGw4 br = some .InvalidGateway) ∧
    (gw4OK c → ¬ gw6OK c → c.validateGw4 br = some .InvalidGateway) := by
  have h6 := validateGw6_cases c
  unfold Configuration.validateGw4
  cases hG : c.DefaultGatewayIPv4 with
  | none =>
    have h4 : gw4OK c := by
      intro br' gw hbr hgw
      rw [hG] at hgw
      exact absurd hgw (by simp)
    dsimp only
    exact ⟨by rw [h6.1]; exact (and_iff_right h4).symm,
      fun h => absurd h4 h,
      fun _ h => h6.2 h⟩
  | some gw =>
    dsimp only
    by_cases hc : br.contains gw = true
    · have h4 : gw4OK c := by
        intro br' gw' hbr hgw
        rw [hA] at hbr; rw [hG] at hgw
        cases hbr; cases hgw; exact hc
      rw [if_neg (by simp [hc])]
      exact ⟨by rw [h6.1]; exact (and_iff_right h4).symm,
        fun h => absurd h4 h,
        fun _ h => h6.2 h⟩
    · have h4 : ¬ gw4OK c := fun h => hc (h br gw hA hG)
      rw [if_pos hc]
      exact ⟨by simp [h4], fun _ => rfl, fun hok _ => absurd hok h4⟩

/-- C5: Configuration.Validate accepts a configuration iff the section-3
invariants hold, and pins the error reported for each violated invariant in
the order the validator checks them: InvalidMtu for a negative MTU;
InvalidContainerSubnet for a container sub-CIDR not contained in the bridge
subnet or with a shorter prefix; InvalidGateway for an IPv4 gateway outside
the bridge subnet; InvalidGateway for an enabled-IPv6 gateway whose v6
sub-CIDR is unset or does not contain it. -/
theorem c5_validate_characterization (c : Configuration) :
    (c.Validate = none ↔ mtuOK c ∧ cidrOK c ∧ gw4OK c ∧ gw6OK c) ∧
    (c.Mtu < 0 → c.Validate = some .InvalidMtu) ∧
    (mtuOK c → ¬ cidrOK c → c.Validate = some .InvalidContainerSubnet) ∧
    (mtuOK c → cidrOK c → ¬ gw4OK c → c.Validate = some .InvalidGateway) ∧
    (mtuOK c → cidrOK c → gw4OK c → ¬ gw6OK c → c.Validate = some .InvalidGateway) := by
  unfold Configuration.Validate
  by_cases hm : c.Mtu < 0
  · have hmBad : ¬ mtuOK c := by unfold mtuOK; omega
    rw [if_pos hm]
    exact ⟨by simp [hmBad], fun _ => rfl,
      fun h => absurd h hmBad, fun h => absurd h hmBad, fun h => absurd h hmBad⟩
  · have hmGood : mtuOK c := by unfold mtuOK; omega
    rw [if_neg hm]
    cases hA : c.AddressIPv4 with
    | none =>
      have hcOK : cidrOK c := by
        intro br fc hbr
        rw [hA] at hbr
        exact absurd hbr (by simp)
      have h4OK : gw4OK c := by
        intro br gw hbr
        rw [hA] at hbr
        exact absurd hbr (by simp)
      have h6 := validateGw6_cases c
      dsimp only
      refine ⟨?_, fun h => absurd h hm, fun _ h => absurd hcOK h,
        fun _ _ h => absurd h4OK h, fun _ _ _ h => h6.2 h⟩
      rw [h6.1]
      exact ⟨fun h => ⟨hmGood, hcOK, h4OK, h⟩, fun h => h.2.2.2⟩
    | some br =>
      have h4c := validateGw4_cases c br hA
      dsimp only
      cases hF : c.FixedCIDR with
      | none =>
        have hcOK : cidrOK c := by
          intro br' fc hbr hfc
          rw [hF] at hfc
          exact absurd hfc (by simp)
        dsimp only
        refine ⟨?_, fun h => absurd h hm, fun _ h => absurd hcOK h,
          fun _ _ h => h4c.2.1 h, fun _ _ h4 h6 => h4c.2.2 h4 h6⟩
        rw [h4c.1]
        exact ⟨fun h => ⟨hmGood, hcOK, h.1, h.2⟩, fun h => ⟨h.2.2.1, h.2.2.2⟩⟩
      | some fc =>
        dsimp only
        by_cases h1 : br.contains fc.addr = true
        · rw [if_neg (by simp [h1])]
          by_cases h2 : br.maskSize > fc.maskSize
          · have hcBad : ¬ cidrOK c := by
              intro h
              have := (h br fc hA hF).2
              unfold IPNet.maskSize at h2
              omega
            rw [if_pos h2]
            exact ⟨by simp [hcBad], fun h => absurd h hm,
              fun _ _ => rfl,
              fun _ h _ => absurd h hcBad,
              fun _ h _ _ => absurd h hcBad⟩
          · have hcOK : cidrOK c := by
              intro br' fc' hbr hfc
              rw [hA] at hbr; rw [hF] at hfc
              cases hbr; cases hfc
              refine ⟨h1, ?_⟩
              unfold IPNet.maskSize at h2
              omega
            rw [if_neg h2]
            refine ⟨?_, fun h => absurd h hm, fun _ h => absurd hcOK h,
              fun _ _ h => h4c.2.1 h, fun _ _ h4 h6 => h4c.2.2 h4 h6⟩
            rw [h4c.1]
            exact ⟨fun h => ⟨hmGood, hcOK, h.1, h.2⟩, fun h => ⟨h.2.2.1, h.2.2.2⟩⟩
        · have hcBad : ¬ cidrOK c := fun h => h1 (h br fc hA hF).1
          rw [if_pos h1]
          exact ⟨by simp [hcBad], fun h => absurd h hm,
            fun _ _ => rfl,
            fun _ h _ => absurd h hcBad,
            fun _ h _ _ => absurd h hcBad⟩

/-- C5 witness: a negative MTU is rejected with InvalidMtu; a container
sub-CIDR outside the bridge subnet is rejected with InvalidContainerSubnet;
the plain scenario configuration is accepted. -/
theorem c5_validate_characterization_witness :
    Configuration.Validate { cfgA with Mtu := -1 } = some .InvalidMtu ∧
    Configuration.Validate { cfgA with FixedCIDR := some ⟨⟨32, ip4v 192 168 0 0⟩, 16⟩ }
      = some .InvalidContainerSubnet ∧
    Configuration.Validate cfgA = none := by
  refine ⟨?_, ?_, ?_⟩
  · exact (c5_validate_characterization _).2.1 (by decide)
  · refine (c5_validate_characterization _).2.2.1 (by unfold mtuOK; decide) ?_
    intro h
    exact absurd (h v4pool ⟨⟨32, ip4v 192 168 0 0⟩, 16⟩ rfl rfl).1 (by decide)
  · refine (c5_validate_characterization cfgA).1.mpr
      ⟨by unfold mtuOK; decide, ?_, ?_, ?_⟩
    · intro br fc hbr hfc
      exact absurd hfc (by unfold cfgA; simp)
    · intro br gw hbr hgw
      exact absurd hgw (by unfold cfgA; simp)
    · intro gw6 hE hgw
      exact absurd hgw (by unfold cfgA; simp)

theorem findLink_delLink_self (ls : List Link) (nm : String) :
    findLink (delLink ls nm) nm = none := by
  induction ls with
  | nil => rfl
  | cons l ls ih =>
    by_cases h : l.name = nm
    · simpa [delLink, List.filter_cons, h] using ih
    · simpa [delLink, List.filter_cons, h, findLink] using ih

theorem CreateNetwork_pipeline (d : DriverState) (w : World) (id : UUID)
    (c : Configuration) (hc : d.config = some c) (hn : d.network = none) :
    CreateNetwork d w id =
      (match applySteps c (buildQueue c (ifaceExists w.kernel c.BridgeName))
          ⟨newInterface c, w.kernel, w.alloc⟩ with
       | (some e, st) =>
         (.error e, { d with network := none },
           { w with kernel := st.kernel, alloc := st.alloc })
       | (none, st) =>
         (.ok (), { d with network := some ⟨id, st.iface, []⟩ },
           { w with kernel := st.kernel, alloc := st.alloc })) := by
  unfold CreateNetwork
  rw [hc, hn]
  rfl

/-- C2: CreateNetwork returns InvalidNetworkConfig when the driver is
unconfigured, NetworkExists when a network is already present (in both
cases leaving driver and world untouched), and whenever the setup pipeline
fails the placeholder network installed at the start of the call has been
removed by the deferred cleanup, so no network is registered after a
failed CreateNetwork. -/
theorem c2_createNetwork_error_contract :
    (∀ d w id, d.config = none →
      CreateNetwork d w id = (.error .InvalidNetworkConfig, d, w)) ∧
    (∀ d w id c n, d.config = some c → d.network = some n →
      CreateNetwork d w id = (.error .NetworkExists, d, w)) ∧
    (∀ d w id c e, d.config = some c → d.network = none →
      (CreateNetwork d w id).1 = .error e →
      ((CreateNetwork d w id).2.1).network = none) := by
  refine ⟨?_, ?_, ?_⟩
  · intro d w id h
    unfold CreateNetwork
    rw [h]
  · intro d w id c n hc hn
    unfold CreateNetwork
    rw [hc, hn]
  · intro d w id c e hc hn herr
    rw [CreateNetwork_pipeline d w id c hc hn] at herr ⊢
    rcases hap : applySteps c (buildQueue c (ifaceExists w.kernel c.BridgeName))
        ⟨newInterface c, w.kernel, w.alloc⟩ with ⟨oe, st⟩
    rw [hap] at herr
    cases oe with
    | some e' => rfl
    | none =>
      have herr' : (Except.ok () : Except DriverError Unit) = .error e := herr
      exact Except.noConfusion herr'

/-- C2 witness: the three cases at concrete inputs; the pipeline-failure
case uses a kernel in which "br0" exists as a non-bridge link, so the
reconcile step fails and the network placeholder is gone afterwards. -/
theorem c2_createNetwork_error_contract_witness :
    CreateNetwork { config := none, network := none } w0 "n1" =
      (.error .InvalidNetworkConfig, { config := none, network := none }, w0) ∧
    CreateNetwork d0 w0 "n2" = (.error .NetworkExists, d0, w0) ∧
    ((CreateNetwork dCfgOnly
        { kernel := ⟨[{ name := "br0", kind := .other }], false⟩ } "n1").2.1).network = none := by
  refine ⟨?_, ?_, ?_⟩
  · exact c2_createNetwork_error_contract.1 _ w0 "n1" rfl
  · exact c2_createNetwork_error_contract.2.1 d0 w0 "n2" cfgA n0 rfl rfl
  · exact c2_createNetwork_error_contract.2.2 dCfgOnly
      { kernel := ⟨[{ name := "br0", kind := .other }], false⟩ } "n1" cfgA .SetupFailed
      rfl rfl (by decide)

theorem queueStep_steps (b : BridgeSetup) (s : SetupStep) :
    (queueStep b s).steps = b.steps ++ [s] := rfl

theorem foldl_queueStep (l : List (Bool × SetupStep)) (b : BridgeSetup) :
    (l.foldl (fun b p => if p.1 then queueStep b p.2 else b) b).steps
      = b.steps ++ (l.filter (·.1)).map (·.2) := by
  induction l generalizing b with
  | nil => simp
  | cons p rest ih =>
    rcases p with ⟨cond, s⟩
    cases cond
    · simpa [List.filter_cons] using ih b
    · have h0 : List.foldl (fun b p => if p.1 = true then queueStep b p.2 else b) b
            ((true, s) :: rest)
          = List.foldl (fun b p => if p.1 = true then queueStep b p.2 else b)
            (queueStep b s) rest := rfl
      rw [h0, ih]
      simp [queueStep, List.filter_cons]

theorem filtmap_cons (c : Bool) (s : SetupStep) (rest : List (Bool × SetupStep)) :
    ((((c, s) :: rest).filter (·.1)).map (·.2))
      = (if c then [s] else []) ++ ((rest.filter (·.1)).map (·.2)) := by
  cases c <;> simp [List.filter_cons]

/-- C3: the setup queue is assembled in exactly the order of the claim -
setupDevice and setupBridgeIPv4 iff the bridge does not already exist,
then each conditional step in table order, then setupDeviceUp last - and
apply executes the queued steps in enqueue order, stopping at the first
step that returns an error. -/
theorem c3_setup_queue_order_and_abort :
    (∀ (c : Configuration) (pre : Bool),
      buildQueue c pre =
        (if pre then [] else [.setupDevice, .setupBridgeIPv4]) ++
        (if c.EnableIPv6 then [.setupBridgeIPv6] else []) ++
        (if pre then [.setupVerifyAndReconcile] else []) ++
        (if c.FixedCIDR.isSome then [.setupFixedCIDRv4] else []) ++
        (if c.FixedCIDRv6.isSome then [.setupFixedCIDRv6] else []) ++
        (if c.EnableIPTables then [.setupIPTables] else []) ++
        (if c.EnableIPForwarding then [.setupIPForwarding] else []) ++
        (if c.DefaultGatewayIPv4.isSome then [.setupGatewayIPv4] else []) ++
        (if c.DefaultGatewayIPv6.isSome then [.setupGatewayIPv6] else []) ++
        [.setupDeviceUp]) ∧
    (∀ (c : Configuration) (l1 : List SetupStep) (s : SetupStep)
        (l2 : List SetupStep) (st st1 : SetupState) (e : DriverError),
      applySteps c l1 st = (none, st1) → runStep c s st1 = .error e →
      applySteps c (l1 ++ s :: l2) st = (some e, st1)) := by
  constructor
  · intro c pre
    cases pre <;>
      (unfold buildQueue
       dsimp only
       simp only [queueStep_steps, foldl_queueStep]
       simp [condSteps, filtmap_cons, queueStep_steps, List.append_assoc])
  · intro c l1 s l2 st st1 e h1 h2
    induction l1 generalizing st with
    | nil =>
      simp only [applySteps] at h1
      injection h1 with h1a h1b
      subst h1b
      simp [applySteps, h2]
    | cons x xs ih =>
      simp only [applySteps, List.cons_append] at h1 ⊢
      cases hrx : runStep c x st with
      | error e' =>
        rw [hrx] at h1
        have h1' : ((some e', st) : Option DriverError × SetupState) = (none, st1) := h1
        exact absurd h1' (by simp)
      | ok st' =>
        rw [hrx] at h1
        exact ih st' h1

/-- C3 witness: a two-step queue where the second step fails on an empty
kernel; apply runs the first step and stops at the failing one. -/
theorem c3_setup_queue_order_and_abort_witness :
    buildQueue cfgA true =
      [.setupVerifyAndReconcile, .setupDeviceUp] ∧
    applySteps cfgA ([SetupStep.setupIPTables] ++ [SetupStep.setupDeviceUp])
        ⟨newInterface cfgA, ⟨[], false⟩, []⟩
      = (some .SetupFailed, ⟨newInterface cfgA, ⟨[], false⟩, []⟩) := by
  constructor
  · simpa using c3_setup_queue_order_and_abort.1 cfgA true
  · exact c3_setup_queue_order_and_abort.2 cfgA [.setupIPTables] .setupDeviceUp []
      ⟨newInterface cfgA, ⟨[], false⟩, []⟩ ⟨newInterface cfgA, ⟨[], false⟩, []⟩
      .SetupFailed (by decide) (by decide)

/-- C4: DeleteNetwork succeeds iff a network is present, its endpoint table
is empty and the bridge link can be deleted; it fails with NoNetwork when
no network is present and ActiveEndpoints when endpoints remain (both
leaving the state untouched, the detached pointer being restored); after
success the bridge link is absent; and the deferred compare-and-restore
reinstalls the detached pointer exactly when no other caller has installed
a new network in the meantime. -/
theorem c4_deleteNetwork_contract :
    (∀ d w nid, (DeleteNetwork d w nid).1 = .ok () ↔
      ∃ n, d.network = some n ∧ n.endpoints = [] ∧
        (findLink w.kernel.links n.bridge.name).isSome = true) ∧
    (∀ d w nid, d.network = none →
      DeleteNetwork d w nid = (.error .NoNetwork, d, w)) ∧
    (∀ d w nid n, d.network = some n → n.endpoints ≠ [] →
      DeleteNetwork d w nid = (.error .ActiveEndpoints, d, w)) ∧
    (∀ d w nid n, d.network = some n → (DeleteNetwork d w nid).1 = .ok () →
      findLink ((DeleteNetwork d w nid).2.2).kernel.links n.bridge.name = none) ∧
    (∀ d' n, (d'.network = none → restoreNetwork d' n = { d' with network := n }) ∧
      (∀ m, d'.network = some m → restoreNetwork d' n = d')) := by
  refine ⟨?_, ?_, ?_, ?_, ?_⟩
  · intro d w nid
    obtain ⟨cfg, net⟩ := d
    cases net with
    | none => simp [DeleteNetwork]
    | some n =>
      by_cases he : n.endpoints = []
      · cases hfl : findLink w.kernel.links n.bridge.name with
        | none => simp [DeleteNetwork, he, hfl]
        | some l => simp [DeleteNetwork, he, hfl]
      · have hlen : n.endpoints.length ≠ 0 := by
          simpa [List.length_eq_zero] using he
        simp [DeleteNetwork, hlen, he]
  · intro d w nid h
    obtain ⟨cfg, net⟩ := d
    simp only at h
    subst h
    rfl
  · intro d w nid n h he
    obtain ⟨cfg, net⟩ := d
    simp only at h
    subst h
    have hlen : n.endpoints.length ≠ 0 := by
      simpa [List.length_eq_zero] using he
    simp [DeleteNetwork, hlen, restoreNetwork]
  · intro d w nid n h hok
    obtain ⟨cfg, net⟩ := d
    simp only at h
    subst h
    by_cases he : n.endpoints = []
    · cases hfl : findLink w.kernel.links n.bridge.name with
      | none => simp [DeleteNetwork, he, hfl] at hok
      | some l =>
        simp only [DeleteNetwork, he, hfl]
        simpa [DeleteNetwork, he, hfl] using findLink_delLink_self w.kernel.links n.bridge.name
    · have hlen : n.endpoints.length ≠ 0 := by
        simpa [List.length_eq_zero] using he
      simp [DeleteNetwork, hlen] at hok
  · intro d' n
    constructor
    · intro h
      unfold restoreNetwork
      rw [h]
    · intro m hm
      unfold restoreNetwork
      rw [hm]

/-- C4 witness: success on the empty scenario network with the bridge
present; NoNetwork on the unconfigured driver; the restore helper at
concrete states. -/
theorem c4_deleteNetwork_contract_witness :
    (DeleteNetwork d0 w0 "n1").1 = .ok () ∧
    DeleteNetwork dCfgOnly w0 "n1" = (.error .NoNetwork, dCfgOnly, w0) ∧
    restoreNetwork dCfgOnly (some n0) = { dCfgOnly with network := some n0 } ∧
    restoreNetwork d0 (some n0) = d0 := by
  refine ⟨?_, ?_, ?_, ?_⟩
  · exact (c4_deleteNetwork_contract.1 d0 w0 "n1").mpr ⟨n0, rfl, rfl, by decide⟩
  · exact c4_deleteNetwork_contract.2.1 dCfgOnly w0 "n1" rfl
  · exact (c4_deleteNetwork_contract.2.2.2.2 dCfgOnly (some n0)).1 rfl
  · exact (c4_deleteNetwork_contract.2.2.2.2 d0 (some n0)).2 n0 rfl

theorem genIfaceGo_ok_mem (existing : List String) :
    ∀ (k : Nat) (cands : List (Option String)) (nm : String),
      genIfaceGo existing k cands = .ok nm →
      some nm ∈ cands ∧ nm ∉ existing := by
  intro k
  induction k with
  | zero =>
    intro cands nm h
    exact absurd h (by simp [genIfaceGo])
  | succ k ih =>
    intro cands nm h
    cases cands with
    | nil =>
      have hrec : genIfaceGo existing k [] = .ok nm := h
      exact absurd (ih [] nm hrec).1 (by simp)
    | cons c cs =>
      cases c with
      | none =>
        have hrec : genIfaceGo existing k cs = .ok nm := h
        have := ih cs nm hrec
        exact ⟨List.mem_cons_of_mem _ this.1, this.2⟩
      | some s =>
        by_cases hs : s ∈ existing
        · have hrec : genIfaceGo existing k cs = .ok nm := by
            have hred : genIfaceGo existing (k + 1) (some s :: cs)
                = if s ∈ existing then genIfaceGo existing k cs else .ok s := rfl
            rw [hred, if_pos hs] at h
            exact h
          have := ih cs nm hrec
          exact ⟨List.mem_cons_of_mem _ this.1, this.2⟩
        · have hred : genIfaceGo existing (k + 1) (some s :: cs)
              = if s ∈ existing then genIfaceGo existing k cs else .ok s := rfl
          rw [hred, if_neg hs] at h
          injection h with h
          subst h
          exact ⟨List.mem_cons_self _ _, hs⟩

theorem genIfaceGo_exhaust (existing : List String) :
    ∀ (k : Nat) (cands : List (Option String)),
      (∀ o ∈ cands.take k, o = none ∨ ∃ s, o = some s ∧ s ∈ existing) →
      genIfaceGo existing k cands = .error .IfaceName := by
  intro k
  induction k with
  | zero => intro cands _; rfl
  | succ k ih =>
    intro cands h
    cases cands with
    | nil => exact ih [] (by simp)
    | cons c cs =>
      have hc := h c (by simp)
      have htail : ∀ o ∈ cs.take k, o = none ∨ ∃ s, o = some s ∧ s ∈ existing := by
        intro o ho
        exact h o (by simpa [List.take_succ_cons] using List.mem_cons_of_mem c ho)
      cases c with
      | none => exact ih cs htail
      | some s =>
        rcases hc with hnone | ⟨s', hs', hmem⟩
        · exact absurd hnone (by simp)
        · have hss : s' = s := by injection hs' with h'; exact h'.symm
          rw [hss] at hmem
          have hred : genIfaceGo existing (k + 1) (some s :: cs)
              = if s ∈ existing then genIfaceGo existing k cs else .ok s := rfl
          rw [hred, if_pos hmem]
          exact ih cs htail

/-- C9: every name generateIfaceName returns comes from the random-name
source (hence is "veth" + 7 hex characters, the contract of
GenerateRandomName) and names no interface already present on the host;
a name in use is rejected and the loop retries, making at most 3 attempts
before returning IfaceName; and CreateEndpoint surfaces that IfaceName
failure. -/
theorem c9_generateIfaceName_contract :
    (∀ (existing : List String) (cands : List (Option String)) (nm : String),
      (∀ o ∈ cands, ∀ s, o = some s → isVethName s = true) →
      generateIfaceName existing cands = .ok nm →
      isVethName nm = true ∧ nm ∉ existing) ∧
    (∀ (existing : List String) (cands : List (Option String)),
      (∀ o ∈ cands.take 3, o = none ∨ ∃ s, o = some s ∧ s ∈ existing) →
      generateIfaceName existing cands = .error .IfaceName) ∧
    (∀ d w nid eid epParse cands1 cands2 genMac (n : BridgeNetwork) c epc,
      d.network = some n → d.config = some c → n.id = nid →
      getEndpoint n eid = .ok none → epParse = .ok epc →
      generateIfaceName (linkNames w.kernel.links) cands1 = .error .IfaceName →
      (CreateEndpoint d w nid eid epParse cands1 cands2 genMac).1
        = .error .IfaceName) := by
  refine ⟨?_, ?_, ?_⟩
  · intro existing cands nm hwf hok
    have := genIfaceGo_ok_mem existing 3 cands nm hok
    exact ⟨hwf (some nm) this.1 nm rfl, this.2⟩
  · intro existing cands h
    exact genIfaceGo_exhaust existing 3 cands h
  · intro d w nid eid epParse cands1 cands2 genMac n c epc hnet hcfg hnid hget hparse hgen
    unfold CreateEndpoint
    rw [hnet, hcfg]
    dsimp only
    rw [if_neg (by simp [hnid])]
    rw [hget, hparse, hgen]

/-- C9 witness: a fresh candidate is accepted; three bad attempts exhaust
the retries; CreateEndpoint surfaces IfaceName on the scenario state. -/
theorem c9_generateIfaceName_contract_witness :
    (isVethName "vetha000001" = true ∧ "vetha000001" ∉ linkNames k0.links) ∧
    generateIfaceName (linkNames k0.links) [none, some "br0", none]
      = .error .IfaceName ∧
    (CreateEndpoint d0 w0 "n1" "e1" (.ok (some {})) [none, some "br0", none] cand2 2).1
      = .error .IfaceName := by
  refine ⟨?_, ?_, ?_⟩
  · exact c9_generateIfaceName_contract.1 (linkNames k0.links) cand1 "vetha000001"
      (by
        intro o ho sgen hs
        simp only [cand1, List.mem_singleton] at ho
        subst ho
        injection hs with hs
        subst hs
        decide)
      (by decide)
  · exact c9_generateIfaceName_contract.2.1 (linkNames k0.links) [none, some "br0", none]
      (by decide)
  · exact c9_generateIfaceName_contract.2.2 d0 w0 "n1" "e1" (.ok (some {}))
      [none, some "br0", none] cand2 2 n0 cfgA (some {}) rfl rfl rfl (by decide) rfl
      (by decide)

/-- C10: each endpoint-id-keyed operation (CreateEndpoint, DeleteEndpoint,
Join, Leave - the latter two on their lookup path, with ICC disabled)
rejects an empty endpoint id with InvalidEndpointID before touching any
state: the driver state, world and firewall rule set are returned
unchanged. -/
theorem c10_empty_eid_rejected :
    (∀ d w nid (n : BridgeNetwork) c epParse cands1 cands2 genMac,
      d.network = some n → d.config = some c → n.id = nid →
      CreateEndpoint d w nid "" epParse cands1 cands2 genMac
        = (.error .InvalidEndpointID, d, w)) ∧
    (∀ d w nid (n : BridgeNetwork) c, d.network = some n → d.config = some c →
      n.id = nid →
      DeleteEndpoint d w nid "" = (.error .InvalidEndpointID, d, w)) ∧
    (∀ d fw (n : BridgeNetwork) c ccParse fail, d.network = some n →
      d.config = some c → c.EnableICC = false →
      Join d fw "" ccParse fail = (.error .InvalidEndpointID, fw)) ∧
    (∀ d fw (n : BridgeNetwork) c ccParse fail, d.network = some n →
      d.config = some c → c.EnableICC = false →
      Leave d fw "" ccParse fail = (.error .InvalidEndpointID, fw)) := by
  refine ⟨?_, ?_, ?_, ?_⟩
  · intro d w nid n c epParse cands1 cands2 genMac hnet hcfg hnid
    unfold CreateEndpoint
    rw [hnet, hcfg]
    dsimp only
    rw [if_neg (by simp [hnid])]
    rfl
  · intro d w nid n c hnet hcfg hnid
    unfold DeleteEndpoint
    rw [hnet, hcfg]
    dsimp only
    rw [if_neg (by simp [hnid])]
    rfl
  · intro d fw n c ccParse fail hnet hcfg hicc
    unfold Join driverLink
    rw [hcfg]
    dsimp only
    rw [hicc, hnet]
    rfl
  · intro d fw n c ccParse fail hnet hcfg hicc
    unfold Leave driverLink
    rw [hcfg]
    dsimp only
    rw [hicc, hnet]
    rfl

/-- C10 witness: the four rejections on the scenario state. -/
theorem c10_empty_eid_rejected_witness :
    CreateEndpoint d0 w0 "n1" "" (.ok none) cand1 cand2 2
      = (.error .InvalidEndpointID, d0, w0) ∧
    DeleteEndpoint d0 w0 "n1" "" = (.error .InvalidEndpointID, d0, w0) ∧
    Join d0 [] "" (.ok none) (fun _ => false) = (.error .InvalidEndpointID, []) ∧
    Leave d0 [] "" (.ok none) (fun _ => false) = (.error .InvalidEndpointID, []) := by
  refine ⟨?_, ?_, ?_, ?_⟩
  · exact c10_empty_eid_rejected.1 d0 w0 "n1" n0 cfgA (.ok none) cand1 cand2 2 rfl rfl rfl
  · exact c10_empty_eid_rejected.2.1 d0 w0 "n1" n0 cfgA rfl rfl rfl
  · exact c10_empty_eid_rejected.2.2.1 d0 [] n0 cfgA (.ok none) (fun _ => false) rfl rfl rfl
  · exact c10_empty_eid_rejected.2.2.2 d0 [] n0 cfgA (.ok none) (fun _ => false) rfl rfl rfl

theorem execLinks_enable_error (fail : LinkSpec → Bool) :
    ∀ (items : List LinkItem) (acc fw fw' : List LinkSpec) (e : DriverError),
      execLinks fail true items acc fw = (.error e, fw') →
      fw' = rollbackLinks acc fw := by
  intro items
  induction items with
  | nil =>
    intro acc fw fw' e h
    exact absurd h (by simp [execLinks])
  | cons item rest ih =>
    intro acc fw fw' e h
    cases item with
    | error e1 =>
      have h' : ((Except.error e1 : Except DriverError Unit), rollbackLinks acc fw)
          = (.error e, fw') := h
      injection h' with h1 h2
      exact h2.symm
    | ok o =>
      cases o with
      | none => exact ih acc fw fw' e h
      | some l =>
        by_cases hf : fail l = true
        · have h' : ((Except.error DriverError.FirewallFailed : Except DriverError Unit),
              rollbackLinks acc fw) = (.error e, fw') := by
            simpa [execLinks, linkEnable, hf] using h
          injection h' with h1 h2
          exact h2.symm
        · have h' : execLinks fail true rest (l :: acc) (l :: fw) = (.error e, fw') := by
            simpa [execLinks, linkEnable, hf] using h
          have := ih (l :: acc) (l :: fw) fw' e h'
          rw [this]
          show List.foldl (fun f l => linkDisable f l) (linkDisable (l :: fw) l) acc
            = rollbackLinks acc fw
          rw [show linkDisable (l :: fw) l = fw from removeFirst_cons_self l fw]
          rfl

theorem driverLink_enable_error (d : DriverState) (fw : List LinkSpec) (eid : UUID)
    (ccParse : Except DriverError (Option ContainerConfiguration))
    (fail : LinkSpec → Bool) (e : DriverError) (fw' : List LinkSpec)
    (h : driverLink d fw eid ccParse true fail = (.error e, fw')) : fw' = fw := by
  unfold driverLink at h
  cases hdn : d.network with
  | none =>
    rw [hdn] at h
    have h' : ((Except.error DriverError.NilPointer : Except DriverError Unit), fw)
        = (.error e, fw') := h
    injection h' with h1 h2
    exact h2.symm
  | some net =>
    rw [hdn] at h
    dsimp only at h
    cases hge : getEndpoint net eid with
    | error e1 =>
      rw [hge] at h
      have h' : ((Except.error e1 : Except DriverError Unit), fw) = (.error e, fw') := h
      injection h' with h1 h2
      exact h2.symm
    | ok o =>
      rw [hge] at h
      cases o with
      | none =>
        have h' : ((Except.error DriverError.EndpointNotFound : Except DriverError Unit), fw)
            = (.error e, fw') := h
        injection h' with h1 h2
        exact h2.symm
      | some endpoint =>
        cases hcc : ccParse with
        | error e1 =>
          rw [hcc] at h
          have h' : ((Except.error e1 : Except DriverError Unit), fw) = (.error e, fw') := h
          injection h' with h1 h2
          exact h2.symm
        | ok occ =>
          rw [hcc] at h
          cases occ with
          | none =>
            have h' : ((Except.ok () : Except DriverError Unit), fw) = (.error e, fw') := h
            exact absurd h' (by simp)
          | some cc =>
            cases hdc : d.config with
            | none =>
              rw [hdc] at h
              have h' : ((Except.error DriverError.NilPointer : Except DriverError Unit), fw)
                  = (.error e, fw') := h
              injection h' with h1 h2
              exact h2.symm
            | some config =>
              rw [hdc] at h
              exact execLinks_enable_error fail _ [] fw fw' e h

/-- C7: when ICC is enabled Join and Leave are no-ops (no link programming,
state unchanged); link programming runs only with ICC disabled; and the
enable direction is transactional: whenever a Join call returns an error,
every link it enabled earlier in the same call has been disabled again, so
the firewall rule set equals its pre-call value. -/
theorem c7_link_icc_and_transactional :
    (∀ d fw eid ccParse fail c, d.config = some c → c.EnableICC = true →
      Join d fw eid ccParse fail = (.ok (), fw) ∧
      Leave d fw eid ccParse fail = (.ok (), fw)) ∧
    (∀ d fw eid ccParse fail e fw',
      Join d fw eid ccParse fail = (.error e, fw') → fw' = fw) := by
  constructor
  · intro d fw eid ccParse fail c hcfg hicc
    constructor
    · unfold Join
      rw [hcfg]
      dsimp only
      rw [hicc]
      rfl
    · unfold Leave
      rw [hcfg]
      dsimp only
      rw [hicc]
      rfl
  · intro d fw eid ccParse fail e fw' h
    unfold Join at h
    cases hdc : d.config with
    | none =>
      rw [hdc] at h
      have h' : ((Except.error DriverError.NilPointer : Except DriverError Unit), fw)
          = (.error e, fw') := h
      injection h' with h1 h2
      exact h2.symm
    | some c =>
      rw [hdc] at h
      dsimp only at h
      by_cases hicc : c.EnableICC = true
      · rw [if_neg (by simp [hicc])] at h
        have h' : ((Except.ok () : Except DriverError Unit), fw) = (.error e, fw') := h
        exact absurd h' (by simp)
      · rw [if_pos (by simpa using hicc)] at h
        exact driverLink_enable_error d fw eid ccParse fail e fw' h

/-- C7 witness: with ICC enabled Join and Leave leave the rules unchanged;
with ICC disabled a Join that enables one link and then fails on a missing
parent endpoint returns the rule set to its initial (empty) value. -/
theorem c7_link_icc_and_transactional_witness :
    Join dICC [] "e1" (.ok (some cc7)) (fun _ => false) = (.ok (), []) ∧
    Leave dICC [] "e1" (.ok (some cc7)) (fun _ => false) = (.ok (), []) ∧
    (Join d7 [] "e1" (.ok (some cc7)) (fun _ => false)).2 = [] := by
  refine ⟨?_, ?_, ?_⟩
  · exact (c7_link_icc_and_transactional.1 dICC [] "e1" (.ok (some cc7))
      (fun _ => false) cfgICC rfl rfl).1
  · exact (c7_link_icc_and_transactional.1 dICC [] "e1" (.ok (some cc7))
      (fun _ => false) cfgICC rfl rfl).2
  · exact c7_link_icc_and_transactional.2 d7 [] "e1" (.ok (some cc7))
      (fun _ => false) .InvalidEndpointID
      (Join d7 [] "e1" (.ok (some cc7)) (fun _ => false)).2 (by decide)

/-- C6: the SLAAC-style preferred address exists exactly when the chosen
IPv6 network's prefix length is at most 80, and is the network prefix with
the 6 MAC bytes copied in at byte offset 10 (the low 48 bits); the full
CreateEndpoint run on the fd00::/64 scenario passes that address as the
allocator hint, the hint is free, and the returned endpoint IPv6 address
has its low bytes equal to the endpoint MAC.  When the prefix length
exceeds 80 no hint is produced. -/
theorem c6_ipv6_preferred_address :
    (∀ (net6 : IPNet) (mac : Nat), net6.prefLen ≤ 80 →
      slaacHint net6 mac
        = some ((net6.addr.val / 2 ^ 48) * 2 ^ 48 + mac % 2 ^ 48)) ∧
    (∀ (net6 : IPNet) (mac : Nat), 80 < net6.prefLen → slaacHint net6 mac = none) ∧
    (∀ mac : Nat, mac < 2 ^ 48 →
      (CreateEndpoint d64 w0 "n1" "e1" (.ok (some { MacAddress := some mac }))
          cand1 cand2 0).1 = .ok (c6Info mac) ∧
      ((f64.addr.val / 2 ^ 48) * 2 ^ 48 + mac % 2 ^ 48) % 2 ^ 48 = mac) := by
  refine ⟨?_, ?_, ?_⟩
  · intro net6 mac h
    unfold slaacHint
    rw [if_pos h]
  · intro net6 mac h
    unfold slaacHint
    rw [if_neg (by omega)]
  · intro mac hmac
    have hmod : mac % 2 ^ 48 = mac := Nat.mod_eq_of_lt hmac
    refine ⟨rfl, ?_⟩
    rw [hmod, Nat.mul_comm, Nat.mul_add_mod]
    exact hmod

/-- C6 witness: the hint at prefix 64 and its absence at prefix 126, and
the full run with a concrete MAC 02:42:12:34:56:78. -/
theorem c6_ipv6_preferred_address_witness :
    slaacHint f64 2482796516984
      = some ((f64.addr.val / 2 ^ 48) * 2 ^ 48 + 2482796516984 % 2 ^ 48) ∧
    slaacHint f6tiny 2482796516984 = none ∧
    (CreateEndpoint d64 w0 "n1" "e1" (.ok (some { MacAddress := some 2482796516984 }))
        cand1 cand2 0).1 = .ok (c6Info 2482796516984) := by
  refine ⟨?_, ?_, ?_⟩
  · exact c6_ipv6_preferred_address.1 f64 2482796516984 (by decide)
  · exact c6_ipv6_preferred_address.2.1 f6tiny 2482796516984 (by decide)
  · exact (c6_ipv6_preferred_address.2.2 2482796516984 (by decide)).1

/-- C1: CreateEndpoint is not atomic on failure.  At the first input the
port allocation fails (the exact requested host port is already reserved):
the error is surfaced and the deferred cleanups do run (endpoint table,
kernel links and port mapper are restored), but the IPv4 address requested
earlier in the call is left allocated - no cleanup ever releases it.  At
the second input the IPv6 pool is exhausted; the failing RequestIP assigns
a shadowed err, so the deferred cleanups do not run at all: the
placeholder endpoint stays in the table, both veth links stay in the
kernel, and the IPv4 address stays allocated. -/
theorem c1_createEndpoint_error_leaks_state :
    ((CreateEndpoint d0 wBusy "n1" "e1" (.ok (some epReq)) cand1 cand2 2).1
        = .error .AllocatePort ∧
      wBusy.alloc = [] ∧
      (CreateEndpoint d0 wBusy "n1" "e1" (.ok (some epReq)) cand1 cand2 2).2.2.alloc
        = [(b4net, ip4v 10 0 0 1)] ∧
      (CreateEndpoint d0 wBusy "n1" "e1" (.ok (some epReq)) cand1 cand2 2).2.2.pm
        = wBusy.pm ∧
      (CreateEndpoint d0 wBusy "n1" "e1" (.ok (some epReq)) cand1 cand2 2).2.1 = d0 ∧
      (CreateEndpoint d0 wBusy "n1" "e1" (.ok (some epReq)) cand1 cand2 2).2.2.kernel
        = wBusy.kernel) ∧
    ((CreateEndpoint d6tiny w6full "n1" "e1" (.ok (some {})) cand1 cand2 2).1
        = .error .NoAvailableIPs ∧
      (CreateEndpoint d6tiny w6full "n1" "e1" (.ok (some {})) cand1 cand2 2).2.1
        = d6tinyLeak ∧
      (CreateEndpoint d6tiny w6full "n1" "e1" (.ok (some {})) cand1 cand2 2).2.2.alloc
        = (b4net, ip4v 10 0 0 1) :: a6full ∧
      (findLink (CreateEndpoint d6tiny w6full "n1" "e1" (.ok (some {}))
          cand1 cand2 2).2.2.kernel.links "vetha000001").isSome = true ∧
      (findLink (CreateEndpoint d6tiny w6full "n1" "e1" (.ok (some {}))
          cand1 cand2 2).2.2.kernel.links "vetha000002").isSome = true) := by
  decide

/-- C8 counterexample: the round-trip laws fail as stated.  (i) With a
pre-existing bridge, CreateNetwork adopts it and DeleteNetwork then
deletes it, so the kernel link list does not return to its initial value.
(ii) With FixedCIDRv6 = fd00::/64, CreateEndpoint allocates the v6 address
from the fd00::/64 pool but DeleteEndpoint releases it against the
bridge's own v6 network (fe80::1/64), so after a successful round trip
the fd00::/64 allocation is still held and the allocator differs from its
initial state. -/
theorem c8_roundtrip_counterexample :
    ((CreateNetwork dCfgOnly w0 "n1").1 = .ok () ∧
      (DeleteNetwork (CreateNetwork dCfgOnly w0 "n1").2.1
        (CreateNetwork dCfgOnly w0 "n1").2.2 "n1").1 = .ok () ∧
      (DeleteNetwork (CreateNetwork dCfgOnly w0 "n1").2.1
        (CreateNetwork dCfgOnly w0 "n1").2.2 "n1").2.2.kernel.links
        ≠ w0.kernel.links) ∧
    ((CreateEndpoint d64 w0 "n1" "e1" (.ok none) cand1 cand2 2).1
        = .ok (c6Info 2) ∧
      (DeleteEndpoint (CreateEndpoint d64 w0 "n1" "e1" (.ok none) cand1 cand2 2).2.1
        (CreateEndpoint d64 w0 "n1" "e1" (.ok none) cand1 cand2 2).2.2 "n1" "e1").1
        = .ok () ∧
      (DeleteEndpoint (CreateEndpoint d64 w0 "n1" "e1" (.ok none) cand1 cand2 2).2.1
        (CreateEndpoint d64 w0 "n1" "e1" (.ok none) cand1 cand2 2).2.2 "n1" "e1").2.2.alloc
        = [(f64, f64.addr.val + 2)] ∧
      w0.alloc = []) := by
  decide

theorem removeFirst_cons_of_ne {α : Type} [DecidableEq α] {x a : α} (h : ¬ x = a)
    (l : List α) : removeFirst (x :: l) a = x :: removeFirst l a := by
  simp [removeFirst, h]

theorem delLink_cons_of_name (l : Link) (ls : List Link) (nm : String)
    (h : l.name = nm) : delLink (l :: ls) nm = delLink ls nm := by
  simp [delLink, List.filter_cons, h]

theorem delLink_mapLink (ls : List Link) (nm : String) (f : Link → Link)
    (hf : ∀ l, (f l).name = l.name) :
    delLink (mapLink ls nm f) nm = delLink ls nm := by
  induction ls with
  | nil => rfl
  | cons l ls ih =>
    by_cases h : l.name = nm
    · simp [mapLink, delLink, List.filter_cons, h, hf l] at ih ⊢
      exact ih
    · simp [mapLink, delLink, List.filter_cons, h] at ih ⊢
      exact ih

theorem delLink_of_not_found (ls : List Link) (nm : String)
    (h : findLink ls nm = none) : delLink ls nm = ls := by
  induction ls with
  | nil => rfl
  | cons l ls ih =>
    simp only [findLink] at h
    by_cases hl : l.name = nm
    · rw [if_pos hl] at h
      exact absurd h (by simp)
    · rw [if_neg hl] at h
      simp [delLink, List.filter_cons, hl] at ih ⊢
      exact ih h

theorem allocatePorts_ok_shape {epc : Option EndpointConfiguration} {cip : IP}
    {db : Option IP} {pm : PMState} {R : List PortBinding} {pm' : PMState}
    (h : allocatePorts epc cip db pm = .ok (R, pm')) : pm' = R ++ pm := by
  unfold allocatePorts at h
  cases epc with
  | none =>
    have h' : (Except.ok (([] : List PortBinding), pm) : Except DriverError (List PortBinding × PMState))
        = .ok (R, pm') := h
    injection h' with h'
    injection h' with h1 h2
    subst h1
    exact h2.symm
  | some ec =>
    dsimp only at h
    cases hpb : ec.PortBindings with
    | none =>
      rw [hpb] at h
      have h' : (Except.ok (([] : List PortBinding), pm) : Except DriverError (List PortBinding × PMState))
          = .ok (R, pm') := h
      injection h' with h'
      injection h' with h1 h2
      subst h1
      exact h2.symm
    | some bs =>
      rw [hpb] at h
      dsimp only at h
      cases hg : allocGo cip db bs pm with
      | error e => rw [hg] at h; exact Except.noConfusion h
      | ok rs =>
        rw [hg] at h
        injection h with h
        injection h with h1 h2
        subst h1
        exact h2.symm

theorem runStep_preserves (c : Configuration) (s : SetupStep) (st st' : SetupState)
    (h : runStep c s st = .ok st') :
    st'.iface.name = st.iface.name ∧
    delLink st'.kernel.links st.iface.name = delLink st.kernel.links st.iface.name := by
  cases s <;>
    simp only [runStep, setupDeviceF, setupBridgeIPv4F, setupBridgeIPv6F,
      setupVerifyAndReconcileF, setupFixedCIDRv4F, setupFixedCIDRv6F,
      setupIPTablesF, setupIPForwardingF, setupGatewayIPv4F, setupGatewayIPv6F,
      setupDeviceUpF] at h <;>
    (repeat' split at h) <;>
    first
      | exact Except.noConfusion h
      | (injection h with h
         subst h
         refine ⟨rfl, ?_⟩
         first
           | rfl
           | exact delLink_cons_of_name _ _ _ rfl
           | exact delLink_mapLink _ _ _ (fun l => rfl))

theorem applySteps_preserves (c : Configuration) :
    ∀ (q : List SetupStep) (st st' : SetupState),
      applySteps c q st = (none, st') →
      st'.iface.name = st.iface.name ∧
      delLink st'.kernel.links st.iface.name = delLink st.kernel.links st.iface.name := by
  intro q
  induction q with
  | nil =>
    intro st st' h
    simp only [applySteps] at h
    injection h with h1 h2
    subst h2
    exact ⟨rfl, rfl⟩
  | cons s rest ih =>
    intro st st' h
    simp only [applySteps] at h
    cases hrs : runStep c s st with
    | error e =>
      rw [hrs] at h
      injection h with h1 h2
      exact Option.noConfusion h1
    | ok stm =>
      rw [hrs] at h
      have hstep := runStep_preserves c s st stm hrs
      have hrest := ih stm st' h
      rw [hstep.1] at hrest
      exact ⟨hrest.1, hrest.2.trans hstep.2⟩

theorem network_roundtrip_links (c : Configuration) (d : DriverState) (w : World)
    (id : UUID) (d1 : DriverState) (w1 : World) (d2 : DriverState) (w2 : World)
    (hc : d.config = some c) (hn : d.network = none)
    (hnf : findLink w.kernel.links c.BridgeName = none)
    (hC : CreateNetwork d w id = (.ok (), d1, w1))
    (hD : DeleteNetwork d1 w1 id = (.ok (), d2, w2)) :
    w2.kernel.links = w.kernel.links := by
  rw [CreateNetwork_pipeline d w id c hc hn] at hC
  rcases hap : applySteps c (buildQueue c (ifaceExists w.kernel c.BridgeName))
      ⟨newInterface c, w.kernel, w.alloc⟩ with ⟨oe, st⟩
  rw [hap] at hC
  cases oe with
  | some e => exact absurd hC (by simp)
  | none =>
    injection hC with hC1 hC2
    injection hC2 with hC2a hC2b
    subst hC2a
    subst hC2b
    have hpres := applySteps_preserves c _ _ st hap
    have hname : st.iface.name = c.BridgeName := hpres.1
    have hdel : delLink st.kernel.links c.BridgeName
        = delLink w.kernel.links c.BridgeName := hpres.2
    unfold DeleteNetwork at hD
    dsimp only at hD
    split at hD
    · exact absurd hD (by simp)
    · split at hD
      · exact absurd hD (by simp)
      · injection hD with hD1 hD2
        injection hD2 with hD2a hD2b
        subst hD2b
        dsimp only
        rw [hname, hdel]
        exact delLink_of_not_found _ _ hnf

theorem setEp_insert_nil (eid : UUID) (ph ep : BridgeEndpoint) :
    setEp (insertEp [] eid ph) eid ep = [(eid, ep)] := by
  simp [insertEp, setEp]

theorem releaseIP_head (s : IPNet) (ip : Nat) (a : AllocState) :
    releaseIP ((s, ip) :: a) s ip = a :=
  removeFirst_cons_self (s, ip) a

theorem getEndpoint_n0 (eid : UUID) :
    getEndpoint n0 eid = if eid = "" then .error .InvalidEndpointID else .ok none := rfl

theorem ep_roundtrip_A (eid : UUID) (a0 : AllocState) (pm0 : PMState)
    (epc : Option EndpointConfiguration) (cs1 cs2 : List (Option String)) (gm : Nat)
    (res : SBInfo) (d1 : DriverState) (w1 : World) (d2 : DriverState) (w2 : World)
    (hC : CreateEndpoint d0 { kernel := k0, alloc := a0, pm := pm0 } "n1" eid (.ok epc)
      cs1 cs2 gm = (.ok res, d1, w1))
    (hD : DeleteEndpoint d1 w1 "n1" eid = (.ok (), d2, w2)) :
    w2.alloc = a0 ∧ w2.pm = pm0 := by
  unfold CreateEndpoint at hC
  rw [show d0.network = some n0 from rfl, show d0.config = some cfgA from rfl] at hC
  dsimp only at hC
  rw [if_neg (show ¬ n0.id ≠ "n1" by decide), getEndpoint_n0 eid] at hC
  by_cases heid : eid = ""
  · rw [if_pos heid] at hC
    exact absurd hC (by simp)
  · rw [if_neg heid] at hC
    dsimp only at hC
    rw [show n0.bridge.bridgeIPv4 = some b4net from rfl,
      show n0.endpoints = ([] : List (UUID × BridgeEndpoint)) from rfl] at hC
    dsimp only at hC
    split at hC
    · exact absurd hC (by simp)
    split at hC
    · exact absurd hC (by simp)
    split at hC
    · exact absurd hC (by simp)
    split at hC
    · exact absurd hC (by simp)
    split at hC
    · exact absurd hC (by simp)
    rw [if_neg (show ¬ ¬ cfgA.Mtu = 0 by decide)] at hC
    split at hC
    · exact absurd hC (by simp)
    split at hC
    · exact absurd hC (by simp)
    split at hC
    · exact absurd hC (by simp)
    rename_i ip4 a1 hreq
    rw [if_neg (show ¬ cfgA.EnableIPv6 = true by decide)] at hC
    dsimp only at hC
    rw [if_neg (show ¬ cfgA.EnableIPv6 = true by decide)] at hC
    split at hC
    · exact absurd hC (by simp)
    rename_i R pm1 hap
    injection hC with hC1 hC2
    injection hC2 with hC2a hC2b
    subst hC2a
    subst hC2b
    obtain ⟨ha1, hfresh⟩ := requestIP_ok_shape hreq
    subst ha1
    have hpm1 := allocatePorts_ok_shape hap
    subst hpm1
    unfold DeleteEndpoint at hD
    dsimp only at hD
    rw [if_neg (show ¬ n0.id ≠ "n1" by decide), setEp_insert_nil] at hD
    unfold getEndpoint at hD
    rw [if_neg heid] at hD
    dsimp only [lookupEp] at hD
    rw [if_pos rfl] at hD
    dsimp only at hD
    rw [show n0.bridge.bridgeIPv4 = some b4net from rfl] at hD
    dsimp only at hD
    rw [releaseIP_head] at hD
    rw [if_neg (show ¬ cfgA.EnableIPv6 = true by decide)] at hD
    dsimp only at hD
    injection hD with hD1 hD2
    injection hD2 with hD2a hD2b
    subst hD2b
    exact ⟨rfl, releasePorts_append _ _⟩

theorem ep_roundtrip_B (eid : UUID) (a0 : AllocState) (pm0 : PMState)
    (epc : Option EndpointConfiguration) (cs1 cs2 : List (Option String)) (gm : Nat)
    (res : SBInfo) (d1 : DriverState) (w1 : World) (d2 : DriverState) (w2 : World)
    (hC : CreateEndpoint dB { kernel := k0, alloc := a0, pm := pm0 } "n1" eid (.ok epc)
      cs1 cs2 gm = (.ok res, d1, w1))
    (hD : DeleteEndpoint d1 w1 "n1" eid = (.ok (), d2, w2)) :
    w2.alloc = a0 ∧ w2.pm = pm0 := by
  unfold CreateEndpoint at hC
  rw [show dB.network = some n0 from rfl, show dB.config = some cfgB from rfl] at hC
  dsimp only at hC
  rw [if_neg (show ¬ n0.id ≠ "n1" by decide), getEndpoint_n0 eid] at hC
  by_cases heid : eid = ""
  · rw [if_pos heid] at hC
    exact absurd hC (by simp)
  · rw [if_neg heid] at hC
    dsimp only at hC
    rw [show n0.bridge.bridgeIPv4 = some b4net from rfl,
      show n0.endpoints = ([] : List (UUID × BridgeEndpoint)) from rfl] at hC
    dsimp only at hC
    split at hC
    · exact absurd hC (by simp)
    split at hC
    · exact absurd hC (by simp)
    split at hC
    · exact absurd hC (by simp)
    split at hC
    · exact absurd hC (by simp)
    split at hC
    · exact absurd hC (by simp)
    rw [if_neg (show ¬ ¬ cfgB.Mtu = 0 by decide)] at hC
    split at hC
    · exact absurd hC (by simp)
    split at hC
    · exact absurd hC (by simp)
    split at hC
    · exact absurd hC (by simp)
    rename_i ip4 a1 hreq
    rw [if_pos (show cfgB.EnableIPv6 = true by decide)] at hC
    rw [show cfgB.FixedCIDRv6 = (none : Option IPNet) from rfl] at hC
    dsimp only at hC
    rw [show n0.bridge.bridgeIPv6 = some linkLocalNet from rfl] at hC
    dsimp only at hC
    split at hC
    · exact absurd hC (by simp)
    rename_i ipv6Addr a2 heqv
    split at heqv
    · simp at heqv
    rename_i ip6 a2x hreq6
    injection heqv with heqv1
    injection heqv1 with hv1 hv2
    subst hv1
    subst hv2
    rw [if_pos (show cfgB.EnableIPv6 = true by decide)] at hC
    split at hC
    · exact absurd hC (by simp)
    rename_i R pm1 hap
    injection hC with hC1 hC2
    injection hC2 with hC2a hC2b
    subst hC2a
    subst hC2b
    obtain ⟨ha1, hfresh4⟩ := requestIP_ok_shape hreq
    subst ha1
    obtain ⟨ha2, hfresh6⟩ := requestIP_ok_shape hreq6
    subst ha2
    have hpm1 := allocatePorts_ok_shape hap
    subst hpm1
    unfold DeleteEndpoint at hD
    dsimp only at hD
    rw [if_neg (show ¬ n0.id ≠ "n1" by decide), setEp_insert_nil] at hD
    unfold getEndpoint at hD
    rw [if_neg heid] at hD
    dsimp only [lookupEp] at hD
    rw [if_pos rfl] at hD
    dsimp only at hD
    rw [show n0.bridge.bridgeIPv4 = some b4net from rfl] at hD
    dsimp only at hD
    have hne : ¬ (((linkLocalNet, ip6) : IPNet × Nat) = (b4net, ip4)) := by
      intro hEq
      exact hfresh6 (hEq ▸ List.mem_cons_self _ _)
    rw [show releaseIP ((linkLocalNet, ip6) :: (b4net, ip4) :: a0) b4net ip4
        = (linkLocalNet, ip6) :: a0 from by
      unfold releaseIP
      rw [removeFirst_cons_of_ne hne, removeFirst_cons_self]] at hD
    rw [if_pos (show cfgB.EnableIPv6 = true by decide)] at hD
    rw [show n0.bridge.bridgeIPv6 = some linkLocalNet from rfl] at hD
    dsimp only at hD
    rw [releaseIP_head] at hD
    injection hD with hD1 hD2
    injection hD2 with hD2a hD2b
    subst hD2b
    exact ⟨rfl, releasePorts_append _ _⟩


/-- C8: Amended round-trip laws.  CreateEndpoint followed by DeleteEndpoint for
the same endpoint id on a network with no other endpoints returns the IP
allocator pool and the port mapper state to exactly their pre-call values,
both on the IPv4-only network and on the IPv6-enabled network without a
FixedCIDRv6 (where the v6 address is allocated from, and released into, the
bridge's own v6 pool); and CreateNetwork followed by DeleteNetwork with no
endpoints returns the kernel link list to its initial state provided the
bridge device did not already exist before the CreateNetwork.  Both
operations of each pair are assumed to succeed. -/
theorem c8_roundtrip_amended :
    (∀ (eid : UUID) (a0 : AllocState) (pm0 : PMState)
      (epc : Option EndpointConfiguration) (cs1 cs2 : List (Option String)) (gm : Nat)
      (res : SBInfo) (d1 : DriverState) (w1 : World) (d2 : DriverState) (w2 : World),
      CreateEndpoint d0 { kernel := k0, alloc := a0, pm := pm0 } "n1" eid (.ok epc)
          cs1 cs2 gm = (.ok res, d1, w1) →
      DeleteEndpoint d1 w1 "n1" eid = (.ok (), d2, w2) →
      w2.alloc = a0 ∧ w2.pm = pm0) ∧
    (∀ (eid : UUID) (a0 : AllocState) (pm0 : PMState)
      (epc : Option EndpointConfiguration) (cs1 cs2 : List (Option String)) (gm : Nat)
      (res : SBInfo) (d1 : DriverState) (w1 : World) (d2 : DriverState) (w2 : World),
      CreateEndpoint dB { kernel := k0, alloc := a0, pm := pm0 } "n1" eid (.ok epc)
          cs1 cs2 gm = (.ok res, d1, w1) →
      DeleteEndpoint d1 w1 "n1" eid = (.ok (), d2, w2) →
      w2.alloc = a0 ∧ w2.pm = pm0) ∧
    (∀ (c : Configuration) (d : DriverState) (w : World) (id : UUID)
      (d1 : DriverState) (w1 : World) (d2 : DriverState) (w2 : World),
      d.config = some c → d.network = none →
      findLink w.kernel.links c.BridgeName = none →
      CreateNetwork d w id = (.ok (), d1, w1) →
      DeleteNetwork d1 w1 id = (.ok (), d2, w2) →
      w2.kernel.links = w.kernel.links) :=
  ⟨fun eid a0 pm0 epc cs1 cs2 gm res d1 w1 d2 w2 hC hD =>
      ep_roundtrip_A eid a0 pm0 epc cs1 cs2 gm res d1 w1 d2 w2 hC hD,
   fun eid a0 pm0 epc cs1 cs2 gm res d1 w1 d2 w2 hC hD =>
      ep_roundtrip_B eid a0 pm0 epc cs1 cs2 gm res d1 w1 d2 w2 hC hD,
   fun c d w id d1 w1 d2 w2 hc hn hnf hC hD =>
      network_roundtrip_links c d w id d1 w1 d2 w2 hc hn hnf hC hD⟩

/-- Witness: the amended round-trip laws instantiated at concrete runs — the
v4-only endpoint round trip, the IPv6 (no FixedCIDRv6) endpoint round trip,
and the network round trip starting from an empty kernel. -/
theorem c8_roundtrip_amended_witness :
    (w2A.alloc = ([] : AllocState) ∧ w2A.pm = ([] : PMState)) ∧
    (w2B.alloc = ([] : AllocState) ∧ w2B.pm = ([] : PMState)) ∧
    wC2.kernel.links = wEmpty.kernel.links :=
  ⟨c8_roundtrip_amended.1 "e1" [] [] none cand1 cand2 2 resA d1A w1A d2A w2A
      (by decide) (by decide),
   c8_roundtrip_amended.2.1 "e1" [] [] none cand1 cand2 2 resB d1B w1B d2B w2B
      (by decide) (by decide),
   c8_roundtrip_amended.2.2 cfgA dCfgOnly wEmpty "n1" dC1 wC1
      (DeleteNetwork dC1 wC1 "n1").2.1 wC2 rfl rfl (by decide)
      (by decide) (by decide)⟩

end Bridge
